import Mathlib

/-!
Verification of the GDC-Form data-management console (src/_form.py):
a shallow embedding in Lean 4 of its schema-evolution, seeding,
update-reconciliation and data-freshness logic, with theorems settling
the specified properties.

Conventions of the embedding:
* SQLite values are modelled by the inductive `Value` (NULL, INTEGER,
  REAL, TEXT); REAL columns are modelled with `Rat`.
* `CURRENT_TIMESTAMP` is modelled by an injected `now : String`
  parameter, so every operation is deterministic.
* Python `datetime` values that have already been parsed are modelled
  as integer second counts; `timedelta.days` is floor division by
  86400 (`Int.fdiv`), matching Python timedelta normalisation.
* Parse failures of library calls (`strptime`, `pd.to_datetime`) are
  modelled with `Option` / dedicated constructors.
-/

namespace GDCForm

/-! ## Freshness evaluator (src/_form.py lines 601-612, 1382-1408)

A timestamp field read from the store is either absent (`pd.isna`
true), a string `datetime.strptime` rejects, or a parsed timestamp.
The parsed timestamp is represented by its total second count. -/

/-- Timestamp field as seen by `is_outdated` / `apply_update_styling`:
absent (`None`/NaN), unparsable in format `%Y-%m-%d %H:%M:%S`, or a
parsed `datetime`, represented as seconds. -/
inductive TsField where
  | absent : TsField
  | unparsable : TsField
  | valid : Int → TsField
deriving DecidableEq

/-- Python `(now - t).days`: `timedelta` stores the floor of the total
seconds over 86400 in its `days` attribute (negative deltas round
toward minus infinity). -/
def pythonDays (now t : Int) : Int := (now - t).fdiv 86400

/-- Embedding of `is_outdated(timestamp_str)` (lines 601-612): `True`
when the field is absent (`pd.isna`), when `strptime` raises (bare
`except`), and otherwise exactly when `(now - timestamp).days > 30`.
The Python function never raises: every branch returns, which the
totality of this definition reflects. -/
def is_outdated (now : Int) : TsField → Bool
  | .absent => true
  | .unparsable => true
  | .valid t => decide (pythonDays now t > 30)

/-- Background colors produced by `apply_update_styling.color_by_days`. -/
inductive StyleColor where
  | green : StyleColor
  | yellow : StyleColor
  | red : StyleColor
deriving DecidableEq

/-- Embedding of `apply_update_styling.color_by_days` (lines 1388-1405):
red for missing dates, red for unparsable dates, and otherwise green
for `days < 30`, yellow for `30 <= days < 35`, red for `days >= 35`,
where `days` is the same `timedelta.days` count `is_outdated` uses. -/
def color_by_days (now : Int) : TsField → StyleColor
  | .absent => .red
  | .unparsable => .red
  | .valid t =>
    if pythonDays now t < 30 then .green
    else if pythonDays now t < 35 then .yellow
    else .red

/-- C2: the staleness predicate is true exactly on absent fields,
unparsable fields, and valid timestamps whose elapsed whole-day count
relative to the reference clock exceeds 30; on valid timestamps it
coincides with `(now - t).days > 30`, and it is total (never raises). -/
theorem is_outdated_iff (now : Int) (f : TsField) :
    is_outdated now f = true ↔
      (f = .absent ∨ f = .unparsable ∨
        ∃ t : Int, f = .valid t ∧ pythonDays now t > 30) := by
  cases f with
  | absent => simp [is_outdated]
  | unparsable => simp [is_outdated]
  | valid t =>
    simp only [is_outdated, decide_eq_true_eq]
    constructor
    · intro h
      exact Or.inr (Or.inr ⟨t, rfl, h⟩)
    · rintro (h | h | ⟨t₂, ht, hd⟩)
      · exact absurd h (by simp)
      · exact absurd h (by simp)
      · cases ht; exact hd

/-! ## Relational store model

SQLite tables as manipulated by `setup_database` and the repository
operations.  A row is an association list from column name to `Value`
(SQLite rows always carry every table column; a missing key is read as
NULL to keep lookups total).  A table is its column definitions (name
plus declared default, as given in the CREATE TABLE / ALTER TABLE
statements) together with its rows.  UNIQUE / FOREIGN KEY constraints
are not enforced by the model; the operations in scope never violate
them on stores produced by the application itself.  `id INTEGER
PRIMARY KEY` columns receive `max existing id + 1` on insert, matching
SQLite rowid assignment. -/

/-- SQLite storage value: NULL, INTEGER, REAL (as `Rat`), or TEXT. -/
inductive Value where
  | null : Value
  | int : Int → Value
  | real : Rat → Value
  | text : String → Value
deriving DecidableEq

/-- Boolean equality test on stored values (models SQL `=` on the
concrete values the code compares: integers and text). -/
def valueEq (a b : Value) : Bool := decide (a = b)

/-- NULL test (SQL `IS NULL`; also `pd.isna` on a fetched field). -/
def isNull : Value → Bool
  | .null => true
  | _ => false

/-- Column default as declared in the schema: none, a constant
integer, or `CURRENT_TIMESTAMP`. -/
inductive Dflt where
  | noneD : Dflt
  | intD : Int → Dflt
  | nowD : Dflt
deriving DecidableEq

/-- Column definition: name and declared default. -/
structure ColDef where
  name : String
  dflt : Dflt
deriving DecidableEq

/-- Row: association list column name to value, in schema order for
rows created by the model. -/
abbrev Row := List (String × Value)

/-- Read a column of a row (first binding of that name); a missing key
reads as NULL. -/
def getVal : Row → String → Value
  | [], _ => .null
  | p :: rest, c => if p.1 == c then p.2 else getVal rest c

/-- Write a column of a row, replacing the first binding of that name
or appending one. -/
def setVal : Row → String → Value → Row
  | [], c, v => [(c, v)]
  | p :: rest, c, v => if p.1 == c then (c, v) :: rest else p :: setVal rest c v

/-- Table: column definitions plus rows. -/
structure Table where
  cols : List ColDef
  rows : List Row
deriving DecidableEq

/-- PRAGMA table_info check: whether the table has a column. -/
def hasCol (t : Table) (c : String) : Bool := t.cols.any (fun cd => cd.name == c)

/-- Value a declared default produces at insert time. -/
def defaultVal (now : String) : Dflt → Value
  | .noneD => .null
  | .intD i => .int i
  | .nowD => .text now

/-- Integer view of a value (0 for anything non-integer), used for
rowid arithmetic. -/
def asInt : Value → Int
  | .int i => i
  | _ => 0

/-- Text view of a value (empty for anything non-text). -/
def asText : Value → String
  | .text s => s
  | _ => ""

/-- Next rowid for an `id INTEGER PRIMARY KEY` column: one past the
largest existing id. -/
def nextId (t : Table) : Int :=
  1 + t.rows.foldl (fun m r => max m (asInt (getVal r "id"))) 0

/-- Look up an explicitly assigned column of an INSERT statement. -/
def lookupAssign (assign : List (String × Value)) (c : String) : Option Value :=
  (assign.find? (fun p => p.1 == c)).map (fun p => p.2)

/-- Row built by an INSERT: every table column, taking the assigned
value when the statement lists the column, the next rowid for an
unassigned `id`, and the declared default otherwise. -/
def mkRow (now : String) (t : Table) (assign : List (String × Value)) : Row :=
  t.cols.map (fun cd => (cd.name,
    match lookupAssign assign cd.name with
    | some v => v
    | none => if cd.name == "id" then .int (nextId t) else defaultVal now cd.dflt))

/-- INSERT INTO t (assign) VALUES (...). -/
def insertRow (now : String) (t : Table) (assign : List (String × Value)) : Table :=
  { t with rows := t.rows ++ [mkRow now t assign] }

/-- UPDATE t SET f WHERE pred. -/
def updateRows (t : Table) (pred : Row → Bool) (f : Row → Row) : Table :=
  { t with rows := t.rows.map (fun r => if pred r then f r else r) }

/-- ALTER TABLE ADD COLUMN guarded by a PRAGMA column-list check:
appends the column and gives every existing row the value `existing`
(the constant default, or NULL when none is declared — SQLite forbids
non-constant defaults in ADD COLUMN). -/
def addColIfMissing (t : Table) (cd : ColDef) (existing : Value) : Table :=
  if hasCol t cd.name then t
  else { cols := t.cols ++ [cd], rows := t.rows.map (fun r => r ++ [(cd.name, existing)]) }

theorem getVal_setVal_self (r : Row) (c : String) (v : Value) :
    getVal (setVal r c v) c = v := by
  induction r with
  | nil => simp [setVal, getVal]
  | cons p rest ih =>
    by_cases h : p.1 = c
    · simp [setVal, h, getVal]
    · simp [setVal, h, getVal, ih]

theorem getVal_setVal_ne (r : Row) (c c₂ : String) (v : Value) (h : c₂ ≠ c) :
    getVal (setVal r c₂ v) c = getVal r c := by
  induction r with
  | nil => simp [setVal, getVal, h]
  | cons p rest ih =>
    by_cases hp : p.1 = c₂
    · subst hp
      simp [setVal, getVal, h, Ne.symm h]
    · simp only [setVal, beq_iff_eq, hp, if_false]
      simp only [getVal]
      by_cases hc : p.1 = c
      · simp [hc]
      · simp [hc, ih]

/-! ## Capability insertion (src/_form.py lines 1829-1853)

The Add-Capability form handler: first a SELECT checks whether a row
with the same (hub_id, capability_name) pair exists; if so the write
is rejected with an error message and nothing is executed; otherwise
the row is inserted with both timestamps set to the current time. -/

/-- Embedding of the add-capability branch of `show_capabilities_view`:
returns the resulting `hub_capabilities` table and `some message` when
the write is rejected. -/
def add_capability (now current_hub : String) (hub_id : Value)
    (name category : String) (headcount : Int) (t : Table) :
    Table × Option String :=
  match t.rows.find? (fun r =>
      valueEq (getVal r "hub_id") hub_id &&
      valueEq (getVal r "capability_name") (.text name)) with
  | some _ => (t, some ("Service " ++ name ++ " already exists for this hub"))
  | none =>
    (insertRow now t [("hub_id", hub_id), ("capability_name", .text name),
      ("capability_category", .text category), ("headcount", .int headcount),
      ("updated_at", .text now), ("updated_by", .text current_hub),
      ("capability_updated_at", .text now)], none)

/-- C8: when a capability row with the same (hub, capability_name)
pair already exists, the attempted insert is rejected with an error
message and the table — including the existing row and its headcount —
is returned unchanged. -/
theorem add_capability_duplicate_rejected (now current_hub : String)
    (hub_id : Value) (name category : String) (headcount : Int) (t : Table)
    (h : ∃ r ∈ t.rows, valueEq (getVal r "hub_id") hub_id = true ∧
      valueEq (getVal r "capability_name") (.text name) = true) :
    (add_capability now current_hub hub_id name category headcount t).1 = t ∧
      (add_capability now current_hub hub_id name category headcount t).2 =
        some ("Service " ++ name ++ " already exists for this hub") := by
  obtain ⟨r, hr, h1, h2⟩ := h
  have hsome : (t.rows.find? (fun r =>
      valueEq (getVal r "hub_id") hub_id &&
      valueEq (getVal r "capability_name") (.text name))).isSome := by
    rw [List.find?_isSome]
    exact ⟨r, hr, by simp [h1, h2]⟩
  unfold add_capability
  obtain ⟨r₂, hfind⟩ := Option.isSome_iff_exists.mp hsome
  rw [hfind]
  exact ⟨rfl, rfl⟩

/-- Witness for `add_capability_duplicate_rejected`: a one-row table
for hub 1 with capability SEO and headcount 7; re-inserting (1, SEO)
is rejected and the table is unchanged. -/
theorem add_capability_duplicate_rejected_witness :
    (∃ r ∈ ([[("id", Value.int 1), ("hub_id", Value.int 1),
        ("capability_name", Value.text "SEO"),
        ("capability_category", Value.text "MEDIA+"),
        ("headcount", Value.int 7)]] : List Row),
      valueEq (getVal r "hub_id") (Value.int 1) = true ∧
      valueEq (getVal r "capability_name") (Value.text "SEO") = true) ∧
    (add_capability "2025-02-01 00:00:00" "X" (Value.int 1) "SEO" "MEDIA+" 3
      ⟨[⟨"id", .noneD⟩, ⟨"hub_id", .noneD⟩, ⟨"capability_name", .noneD⟩,
        ⟨"capability_category", .noneD⟩, ⟨"headcount", .intD 0⟩],
       [[("id", Value.int 1), ("hub_id", Value.int 1),
        ("capability_name", Value.text "SEO"),
        ("capability_category", Value.text "MEDIA+"),
        ("headcount", Value.int 7)]]⟩).1 =
      ⟨[⟨"id", .noneD⟩, ⟨"hub_id", .noneD⟩, ⟨"capability_name", .noneD⟩,
        ⟨"capability_category", .noneD⟩, ⟨"headcount", .intD 0⟩],
       [[("id", Value.int 1), ("hub_id", Value.int 1),
        ("capability_name", Value.text "SEO"),
        ("capability_category", Value.text "MEDIA+"),
        ("headcount", Value.int 7)]]⟩ :=
  ⟨by decide,
    (add_capability_duplicate_rejected "2025-02-01 00:00:00" "X" (Value.int 1)
      "SEO" "MEDIA+" 3 _ (by decide)).1⟩

/-! ## Hub-metrics update (src/_form.py lines 1036-1128)

`update_hub_metrics(metrics_data)`: when any of the three gender keys
is missing from the input dict, the current stored percentages of the
target row are fetched and used for the missing keys (0 when the row
is not found); then a single UPDATE writes the core fields, the
resolved gender percentages, `updated_at = CURRENT_TIMESTAMP`,
`updated_by`, and — only when the corresponding key is present — the
optional `bench_count`, `location_headcounts` and `certifications`
fields.  None of `metrics_updated_at`, `location_updated_at`,
`certifications_updated_at` appears in the SET clause. -/

/-- Input dict of `update_hub_metrics`; `Option` fields model keys
that may be absent from the dict. -/
structure MetricsData where
  id : Value
  total_headcount : Value
  total_seats : Value
  total_clients : Value
  services_offered : Value
  female_percent : Option Value
  male_percent : Option Value
  other_gender_percent : Option Value
  campus_type : Value
  sez_status : Value
  location : Value
  coverage_hours : Value
  transport_facilities : Value
  updated_by : Value
  bench_count : Option Value
  location_headcounts : Option Value
  certifications : Option Value
deriving DecidableEq

/-- Apply a SET clause left to right. -/
def applySets (sets : List (String × Value)) (r : Row) : Row :=
  sets.foldl (fun r p => setVal r p.1 p.2) r

/-- Gender-percentage resolution of `update_hub_metrics` (lines
1042-1066): keep provided values; fetch the first row with the given
id for missing ones, defaulting to 0 when no row matches. -/
def resolveGender (t : Table) (md : MetricsData) : Value × Value × Value :=
  if md.female_percent.isSome ∧ md.male_percent.isSome ∧
      md.other_gender_percent.isSome then
    (md.female_percent.getD (.int 0), md.male_percent.getD (.int 0),
     md.other_gender_percent.getD (.int 0))
  else
    match t.rows.find? (fun r => valueEq (getVal r "id") md.id) with
    | some r =>
      (md.female_percent.getD (getVal r "female_percent"),
       md.male_percent.getD (getVal r "male_percent"),
       md.other_gender_percent.getD (getVal r "other_gender_percent"))
    | none =>
      (md.female_percent.getD (.int 0), md.male_percent.getD (.int 0),
       md.other_gender_percent.getD (.int 0))

/-- Core SET clause of `update_hub_metrics` (always included), in
source order. -/
def coreSets (now : String) (md : MetricsData) (g : Value × Value × Value) :
    List (String × Value) :=
  [("total_headcount", md.total_headcount), ("total_seats", md.total_seats),
   ("total_clients", md.total_clients), ("services_offered", md.services_offered),
   ("female_percent", g.1), ("male_percent", g.2.1),
   ("other_gender_percent", g.2.2), ("campus_type", md.campus_type),
   ("sez_status", md.sez_status), ("location", md.location),
   ("coverage_hours", md.coverage_hours),
   ("transport_facilities", md.transport_facilities),
   ("updated_at", .text now), ("updated_by", md.updated_by)]

/-- Optional SET-clause entries, appended when the input dict contains
the keys. -/
def optionalSets (md : MetricsData) : List (String × Value) :=
  (match md.bench_count with
   | some v => [("bench_count", v)]
   | none => []) ++
  (match md.location_headcounts with
   | some v => [("location_headcounts", v)]
   | none => []) ++
  (match md.certifications with
   | some v => [("certifications", v)]
   | none => [])

/-- Embedding of `update_hub_metrics`: resolve the gender percentages,
then UPDATE every row whose id matches with the assembled SET clause. -/
def update_hub_metrics (now : String) (md : MetricsData) (t : Table) : Table :=
  updateRows t (fun r => valueEq (getVal r "id") md.id)
    (applySets (coreSets now md (resolveGender t md) ++ optionalSets md))

theorem applySets_append (a b : List (String × Value)) (r : Row) :
    applySets (a ++ b) r = applySets b (applySets a r) := by
  simp [applySets, List.foldl_append]

theorem getVal_applySets_notmem (sets : List (String × Value)) (r : Row)
    (c : String) (h : ∀ p ∈ sets, p.1 ≠ c) :
    getVal (applySets sets r) c = getVal r c := by
  induction sets generalizing r with
  | nil => simp [applySets]
  | cons p rest ih =>
    have hp : p.1 ≠ c := h p (by simp)
    have hrest : ∀ q ∈ rest, q.1 ≠ c := fun q hq => h q (by simp [hq])
    simp only [applySets, List.foldl_cons]
    rw [show List.foldl (fun r p => setVal r p.1 p.2) (setVal r p.1 p.2) rest =
        applySets rest (setVal r p.1 p.2) from rfl, ih _ hrest,
      getVal_setVal_ne _ _ _ _ hp]

theorem mem_optEntry (o : Option Value) (n : String) (p : String × Value)
    (hp : p ∈ (match o with
      | some v => [(n, v)]
      | none => ([] : List (String × Value)))) : p.1 = n := by
  cases o with
  | none => simp at hp
  | some v =>
    simp only [List.mem_singleton] at hp
    rw [hp]

theorem optionalSets_names (md : MetricsData) :
    ∀ p ∈ optionalSets md,
      p.1 = "bench_count" ∨ p.1 = "location_headcounts" ∨ p.1 = "certifications" := by
  intro p hp
  unfold optionalSets at hp
  rcases List.mem_append.mp hp with h | h
  · rcases List.mem_append.mp h with h₂ | h₂
    · exact Or.inl (mem_optEntry _ _ _ h₂)
    · exact Or.inr (Or.inl (mem_optEntry _ _ _ h₂))
  · exact Or.inr (Or.inr (mem_optEntry _ _ _ h))

theorem getVal_applySets_coreSets_female (now : String) (md : MetricsData)
    (g : Value × Value × Value) (r : Row) :
    getVal (applySets (coreSets now md g) r) "female_percent" = g.1 := by
  simp [coreSets, applySets, getVal_setVal_self, getVal_setVal_ne]

theorem getVal_applySets_coreSets_male (now : String) (md : MetricsData)
    (g : Value × Value × Value) (r : Row) :
    getVal (applySets (coreSets now md g) r) "male_percent" = g.2.1 := by
  simp [coreSets, applySets, getVal_setVal_self, getVal_setVal_ne]

theorem getVal_applySets_coreSets_other (now : String) (md : MetricsData)
    (g : Value × Value × Value) (r : Row) :
    getVal (applySets (coreSets now md g) r) "other_gender_percent" = g.2.2 := by
  simp [coreSets, applySets, getVal_setVal_self, getVal_setVal_ne]

theorem getVal_optionalSets_gender (md : MetricsData) (r : Row) (c : String)
    (hc : c = "female_percent" ∨ c = "male_percent" ∨ c = "other_gender_percent") :
    getVal (applySets (optionalSets md) r) c = getVal r c := by
  apply getVal_applySets_notmem
  intro p hp
  rcases optionalSets_names md p hp with h | h | h <;>
    rcases hc with h₂ | h₂ | h₂ <;> simp [h, h₂]

/-- C10: when the input dict of a hub-metrics update contains none of
the three gender keys, the operation reads the currently stored
percentages from the target row and writes the same values back, so
every row of the table keeps its stored gender distribution (rows are
unchanged pointwise; the hypothesis that ids identify at most one row
reflects the primary-key column). -/
theorem update_hub_metrics_preserves_gender (now : String) (md : MetricsData)
    (t : Table)
    (hf : md.female_percent = none) (hm : md.male_percent = none)
    (ho : md.other_gender_percent = none)
    (huniq : ∀ r₁ ∈ t.rows, ∀ r₂ ∈ t.rows,
      valueEq (getVal r₁ "id") md.id = true →
      valueEq (getVal r₂ "id") md.id = true → r₁ = r₂) :
    List.Forall₂ (fun r r₂ =>
        getVal r₂ "female_percent" = getVal r "female_percent" ∧
        getVal r₂ "male_percent" = getVal r "male_percent" ∧
        getVal r₂ "other_gender_percent" = getVal r "other_gender_percent")
      t.rows (update_hub_metrics now md t).rows := by
  unfold update_hub_metrics updateRows
  rw [List.forall₂_map_right_iff]
  rw [List.forall₂_same]
  intro r hr
  by_cases hpred : valueEq (getVal r "id") md.id = true
  · simp only [hpred, if_true]
    have hfind : t.rows.find? (fun r => valueEq (getVal r "id") md.id) = some r := by
      have hsome : (t.rows.find? (fun r => valueEq (getVal r "id") md.id)).isSome := by
        rw [List.find?_isSome]; exact ⟨r, hr, hpred⟩
      obtain ⟨r₀, hr₀⟩ := Option.isSome_iff_exists.mp hsome
      have hmem : r₀ ∈ t.rows := List.mem_of_find?_eq_some hr₀
      have hpred₀ : valueEq (getVal r₀ "id") md.id = true := by
        simpa using List.find?_some hr₀
      rw [hr₀, huniq r₀ hmem r hr hpred₀ hpred]
    have hres : resolveGender t md =
        (getVal r "female_percent", getVal r "male_percent",
         getVal r "other_gender_percent") := by
      unfold resolveGender
      rw [if_neg (by simp [hf]), hfind]
      simp [hf, hm, ho]
    rw [applySets_append]
    refine ⟨?_, ?_, ?_⟩
    · rw [getVal_optionalSets_gender md _ _ (Or.inl rfl),
        getVal_applySets_coreSets_female, hres]
    · rw [getVal_optionalSets_gender md _ _ (Or.inr (Or.inl rfl)),
        getVal_applySets_coreSets_male, hres]
    · rw [getVal_optionalSets_gender md _ _ (Or.inr (Or.inr rfl)),
        getVal_applySets_coreSets_other, hres]
  · simp only [hpred, if_false]
    exact ⟨rfl, rfl, rfl⟩

/-- Hub-metrics table used to exhibit the update behavior: one row,
id 1, with all three fine-grained timestamps at an old date. -/
def hmRowOld : Row :=
  [("id", Value.int 1), ("total_headcount", Value.int 95),
   ("female_percent", Value.real 35), ("male_percent", Value.real 63),
   ("other_gender_percent", Value.real 2),
   ("location", Value.text "Gurugram"),
   ("updated_at", Value.text "2024-01-01 00:00:00"),
   ("updated_by", Value.text "admin"),
   ("location_headcounts", Value.text "old-locations"),
   ("certifications", Value.text "old-certs"),
   ("metrics_updated_at", Value.text "2024-01-01 00:00:00"),
   ("location_updated_at", Value.text "2024-01-01 00:00:00"),
   ("certifications_updated_at", Value.text "2024-01-01 00:00:00")]

/-- Input dict mutating core metrics, location data and certification
data of row 1 (gender keys present so no fetch happens). -/
def mdTouchAll : MetricsData :=
  { id := Value.int 1, total_headcount := Value.int 120,
    total_seats := Value.int 80, total_clients := Value.int 10,
    services_offered := Value.int 9,
    female_percent := some (Value.real 35), male_percent := some (Value.real 63),
    other_gender_percent := some (Value.real 2),
    campus_type := Value.text "In-Campus", sez_status := Value.text "No",
    location := Value.text "Chennai", coverage_hours := Value.text "24x5",
    transport_facilities := Value.text "Yes", updated_by := Value.text "AKQA",
    bench_count := some (Value.int 4),
    location_headcounts := some (Value.text "new-locations"),
    certifications := some (Value.text "new-certs") }

/-- C9 failing run: a hub-metrics mutation that changes the core
numbers, the location data and the certification data sets
`updated_at` but leaves all three fine-grained timestamps
(`metrics_updated_at`, `location_updated_at`,
`certifications_updated_at`) at their old values — `update_hub_metrics`
has no SET entry for any of them, so no mutation path refreshes them. -/
theorem update_hub_metrics_never_touches_fine_grained_timestamps :
    (getVal ((update_hub_metrics "2025-06-01 12:00:00" mdTouchAll
        ⟨[], [hmRowOld]⟩).rows.headI) "total_headcount" = Value.int 120) ∧
    (getVal ((update_hub_metrics "2025-06-01 12:00:00" mdTouchAll
        ⟨[], [hmRowOld]⟩).rows.headI) "location" = Value.text "Chennai") ∧
    (getVal ((update_hub_metrics "2025-06-01 12:00:00" mdTouchAll
        ⟨[], [hmRowOld]⟩).rows.headI) "certifications" = Value.text "new-certs") ∧
    (getVal ((update_hub_metrics "2025-06-01 12:00:00" mdTouchAll
        ⟨[], [hmRowOld]⟩).rows.headI) "updated_at" =
      Value.text "2025-06-01 12:00:00") ∧
    (getVal ((update_hub_metrics "2025-06-01 12:00:00" mdTouchAll
        ⟨[], [hmRowOld]⟩).rows.headI) "metrics_updated_at" =
      Value.text "2024-01-01 00:00:00") ∧
    (getVal ((update_hub_metrics "2025-06-01 12:00:00" mdTouchAll
        ⟨[], [hmRowOld]⟩).rows.headI) "location_updated_at" =
      Value.text "2024-01-01 00:00:00") ∧
    (getVal ((update_hub_metrics "2025-06-01 12:00:00" mdTouchAll
        ⟨[], [hmRowOld]⟩).rows.headI) "certifications_updated_at" =
      Value.text "2024-01-01 00:00:00") := by
  refine ⟨?_, ?_, ?_, ?_, ?_, ?_, ?_⟩ <;> decide

/-- Input dict omitting the three gender keys (and the optional keys),
as the hub-metrics form submits since gender moved to People Analytics. -/
def mdNoGender : MetricsData :=
  { id := Value.int 1, total_headcount := Value.int 120,
    total_seats := Value.int 80, total_clients := Value.int 10,
    services_offered := Value.int 9,
    female_percent := none, male_percent := none, other_gender_percent := none,
    campus_type := Value.text "In-Campus", sez_status := Value.text "No",
    location := Value.text "Chennai", coverage_hours := Value.text "24x5",
    transport_facilities := Value.text "Yes", updated_by := Value.text "AKQA",
    bench_count := none, location_headcounts := none, certifications := none }

/-- Witness for `update_hub_metrics_preserves_gender`: a one-row table
with stored percentages 35/63/2 updated with a dict omitting the
gender keys keeps 35/63/2. -/
theorem update_hub_metrics_preserves_gender_witness :
    (mdNoGender.female_percent = none ∧ mdNoGender.male_percent = none ∧
      mdNoGender.other_gender_percent = none ∧
      (∀ r₁ ∈ (Table.mk [] [hmRowOld]).rows, ∀ r₂ ∈ (Table.mk [] [hmRowOld]).rows,
        valueEq (getVal r₁ "id") mdNoGender.id = true →
        valueEq (getVal r₂ "id") mdNoGender.id = true → r₁ = r₂)) ∧
    List.Forall₂ (fun r r₂ =>
        getVal r₂ "female_percent" = getVal r "female_percent" ∧
        getVal r₂ "male_percent" = getVal r "male_percent" ∧
        getVal r₂ "other_gender_percent" = getVal r "other_gender_percent")
      (Table.mk [] [hmRowOld]).rows
      (update_hub_metrics "2025-06-01 12:00:00" mdNoGender
        (Table.mk [] [hmRowOld])).rows :=
  ⟨⟨rfl, rfl, rfl, by decide⟩,
    update_hub_metrics_preserves_gender "2025-06-01 12:00:00" mdNoGender
      (Table.mk [] [hmRowOld]) rfl rfl rfl (by decide)⟩

/-! ## Gender-percentage reconciliation (src/_form.py lines 3078-3230)

`handle_gender_category` builds one editable row per time period with
columns Female, Male, Other Gender and a disabled Total column that is
computed at build time as the sum of the then-stored counts (line
3100).  `st.data_editor` never recomputes a disabled column, so after
the user edits the counts the saved row carries the edited
Female/Male/Other values next to the pre-edit stored Total.  On save,
when any rows exist, the handler takes the first (most-recent) row
and — only when its Total is strictly positive — overwrites the stored
hub percentages with count/total*100; a non-positive Total skips the
hub-metrics update entirely, so no division by zero is ever executed,
but the guard tests the stored pre-edit total, not the saved counts. -/

/-- One row of the gender editor table as saved: the three counts are
the user's edited values, `total` is whatever the disabled Total
column holds (the pre-edit stored sum). -/
structure GenderEditRow where
  time_period : String
  female : Int
  male : Int
  other : Int
  total : Int
deriving DecidableEq

/-- Editor row after build (line 3100) and user edit: Female, Male and
Other Gender carry the edited counts `f`, `m`, `o`, while the disabled
Total keeps the build-time sum of the stored counts. -/
def editedGenderRow (p : String) (storedF storedM storedO f m o : Int) :
    GenderEditRow :=
  ⟨p, f, m, o, storedF + storedM + storedO⟩

/-- Embedding of the hub-metrics percentage write-back after a gender
save (lines 3203-3228): with no edited rows nothing happens; otherwise
the first row is the most recent period, and only when its total is
positive are female/male/other percentages recomputed as
count/total*100 and written to every hub-metrics row of the hub,
together with `updated_at`/`updated_by`. -/
def gender_pct_writeback (now current_hub : String) (hub_id : Value)
    (edited : List GenderEditRow) (hm : Table) : Table :=
  match edited with
  | [] => hm
  | latest :: _ =>
    if latest.total > 0 then
      updateRows hm (fun r => valueEq (getVal r "hub_id") hub_id)
        (applySets
          [("female_percent", .real ((latest.female : Rat) / (latest.total : Rat) * 100)),
           ("male_percent", .real ((latest.male : Rat) / (latest.total : Rat) * 100)),
           ("other_gender_percent", .real ((latest.other : Rat) / (latest.total : Rat) * 100)),
           ("updated_at", .text now), ("updated_by", .text current_hub)])
    else hm

/-- Hub-metrics table with seeded default percentages 35/63/2 for hub 1,
used to refute the all-zero reconciliation claim. -/
def hmSeeded : Table :=
  ⟨[], [[("id", Value.int 1), ("hub_id", Value.int 1),
    ("female_percent", Value.real 35), ("male_percent", Value.real 63),
    ("other_gender_percent", Value.real 2)]]⟩

/-- Values the five-entry gender SET clause leaves in the three
percentage columns of a row: each equals the value written for it. -/
theorem getVal_genderSets (v₁ v₂ v₃ v₄ v₅ : Value) (r : Row) :
    getVal (applySets [("female_percent", v₁), ("male_percent", v₂),
        ("other_gender_percent", v₃), ("updated_at", v₄),
        ("updated_by", v₅)] r) "female_percent" = v₁ ∧
      getVal (applySets [("female_percent", v₁), ("male_percent", v₂),
        ("other_gender_percent", v₃), ("updated_at", v₄),
        ("updated_by", v₅)] r) "male_percent" = v₂ ∧
      getVal (applySets [("female_percent", v₁), ("male_percent", v₂),
        ("other_gender_percent", v₃), ("updated_at", v₄),
        ("updated_by", v₅)] r) "other_gender_percent" = v₃ := by
  refine ⟨?_, ?_, ?_⟩ <;> simp [applySets, getVal_setVal_self, getVal_setVal_ne]

/-- C4 counterexample: saving a Gender set whose latest-period counts
are female=0, male=0, other=0 — here one that was stored as 0/0/0, so
the disabled Total column built at line 3100 is 0 — leaves the stored
percentages at their previous values (the seeded 35/63/2), not at
0/0/0: the write-back is skipped because its guard total is 0. -/
theorem gender_zero_counts_do_not_zero_percentages :
    (gender_pct_writeback "2025-06-01 12:00:00" "AKQA" (Value.int 1)
        [editedGenderRow "Jan 2025" 0 0 0 0 0 0] hmSeeded = hmSeeded) ∧
    getVal (hmSeeded.rows.headI) "female_percent" = Value.real 35 ∧
    ¬ getVal (hmSeeded.rows.headI) "female_percent" = Value.real 0 ∧
    getVal (hmSeeded.rows.headI) "male_percent" = Value.real 63 ∧
    getVal (hmSeeded.rows.headI) "other_gender_percent" = Value.real 2 := by
  refine ⟨?_, ?_, ?_, ?_, ?_⟩ <;> decide

/-- C4 amended: a save whose latest-period counts are all zero never
divides by zero, because the write-back is guarded by the row's Total
— but that Total is the disabled editor column holding the pre-edit
stored sum, not the sum of the saved counts.  When the stored total is
non-positive the write-back is skipped entirely and the hub-metrics
table is unchanged; when it is positive (counts edited down to zero)
the write-back runs and stores 0 percent for all three buckets on
every row of the hub, leaving other hubs' rows untouched. -/
theorem gender_zero_counts_writeback (now current_hub : String)
    (hub_id : Value) (p : String) (total : Int) (rest : List GenderEditRow)
    (hm : Table) :
    (total ≤ 0 →
      gender_pct_writeback now current_hub hub_id
        (⟨p, 0, 0, 0, total⟩ :: rest) hm = hm) ∧
    (0 < total →
      List.Forall₂ (fun r r₂ =>
          (valueEq (getVal r "hub_id") hub_id = true →
            getVal r₂ "female_percent" = Value.real 0 ∧
            getVal r₂ "male_percent" = Value.real 0 ∧
            getVal r₂ "other_gender_percent" = Value.real 0) ∧
          (valueEq (getVal r "hub_id") hub_id = false → r₂ = r))
        hm.rows
        (gender_pct_writeback now current_hub hub_id
          (⟨p, 0, 0, 0, total⟩ :: rest) hm).rows) := by
  constructor
  · intro htotal
    simp only [gender_pct_writeback]
    rw [if_neg (by simpa using htotal)]
  · intro htotal
    simp only [gender_pct_writeback]
    rw [if_pos (by exact htotal)]
    unfold updateRows
    rw [List.forall₂_map_right_iff, List.forall₂_same]
    intro r hr
    have hzero : ((0 : Int) : Rat) / ((total : Int) : Rat) * 100 = 0 := by
      simp
    by_cases hpred : valueEq (getVal r "hub_id") hub_id = true
    · refine ⟨fun _ => ?_, fun hfalse => ?_⟩
      · simp only [hpred, if_true]
        refine ⟨?_, ?_, ?_⟩
        · rw [(getVal_genderSets _ _ _ _ _ r).1, hzero]
        · rw [(getVal_genderSets _ _ _ _ _ r).2.1, hzero]
        · rw [(getVal_genderSets _ _ _ _ _ r).2.2, hzero]
      · rw [hpred] at hfalse
        exact Bool.noConfusion hfalse
    · have hpredf : valueEq (getVal r "hub_id") hub_id = false :=
        Bool.eq_false_iff.mpr (fun hc => hpred hc)
      refine ⟨fun htrue => ?_, fun _ => ?_⟩
      · rw [htrue] at hpredf
        exact Bool.noConfusion hpredf
      · simp [hpredf]

/-- Witness for `gender_zero_counts_writeback`, both branches: an
unedited all-zero set (stored total 0) leaves the seeded table
unchanged, and a set whose stored counts summed to 20 but whose saved
counts are 0/0/0 passes the guard and zeroes the percentages of hub 1. -/
theorem gender_zero_counts_writeback_witness :
    ((0 : Int) ≤ 0 ∧
      gender_pct_writeback "2025-06-01 12:00:00" "AKQA" (Value.int 1)
        [⟨"Jan 2025", 0, 0, 0, 0⟩] hmSeeded = hmSeeded) ∧
    ((0 : Int) < 20 ∧
      List.Forall₂ (fun r r₂ =>
          (valueEq (getVal r "hub_id") (Value.int 1) = true →
            getVal r₂ "female_percent" = Value.real 0 ∧
            getVal r₂ "male_percent" = Value.real 0 ∧
            getVal r₂ "other_gender_percent" = Value.real 0) ∧
          (valueEq (getVal r "hub_id") (Value.int 1) = false → r₂ = r))
        hmSeeded.rows
        (gender_pct_writeback "2025-06-01 12:00:00" "AKQA" (Value.int 1)
          [⟨"Jan 2025", 0, 0, 0, 20⟩] hmSeeded).rows) :=
  ⟨⟨by decide,
    (gender_zero_counts_writeback "2025-06-01 12:00:00" "AKQA" (Value.int 1)
      "Jan 2025" 0 [] hmSeeded).1 (by decide)⟩,
   ⟨by decide,
    (gender_zero_counts_writeback "2025-06-01 12:00:00" "AKQA" (Value.int 1)
      "Jan 2025" 20 [] hmSeeded).2 (by decide)⟩⟩

/-! ## Total-headcount reconciliation (src/_form.py lines 1420-1444)

`show_hub_metrics_view` derives the displayed total headcount from the
People Metrics table: filter to the Employment Type category, sort its
distinct time periods by `pd.to_datetime(x, format="%b %Y",
errors="coerce")` newest first, take the first, and add the first
Permanent Employees value and the first Contract Employees value of
that period (0 when either row is absent); with no Employment Type
rows the total is 0.  `errors="coerce"` maps an unparsable period to
NaT, whose comparisons are all false, so the sort order is only
determined when every period parses; the fold below picks a parsed
maximum and coincides with the source whenever all periods parse (the
hypothesis of the theorem). -/

/-- People-metric row as fetched by `get_people_metrics`. -/
structure PeopleMetricRow where
  metric_name : String
  metric_value : Rat
  metric_category : String
  time_period : String
deriving DecidableEq

/-- Character-level split at every space (the separator of the
`%b %Y` format). -/
def splitChars : List Char → List (List Char)
  | [] => [[]]
  | c :: rest =>
    let r := splitChars rest
    if c = ' ' then [] :: r
    else
      match r with
      | [] => [[c]]
      | w :: ws => (c :: w) :: ws

/-- Split a string at spaces. -/
def splitOnSpace (s : String) : List String :=
  (splitChars s.toList).map (fun w => String.mk w)

/-- Lower-cased copy of a string (the `%b` directive is
case-insensitive). -/
def lowerChars (s : String) : String := String.mk (s.toList.map Char.toLower)

/-- Month-abbreviation index for the `%b` directive. -/
def monthIndex (s : String) : Option Nat :=
  match lowerChars s with
  | "jan" => some 1
  | "feb" => some 2
  | "mar" => some 3
  | "apr" => some 4
  | "may" => some 5
  | "jun" => some 6
  | "jul" => some 7
  | "aug" => some 8
  | "sep" => some 9
  | "oct" => some 10
  | "nov" => some 11
  | "dec" => some 12
  | _ => none

/-- Year for the `%Y` directive: one to four digits. -/
def parseYearChars : List Char → Option Nat
  | [] => none
  | cs =>
    if cs.all Char.isDigit ∧ cs.length ≤ 4 then
      some (cs.foldl (fun n c => n * 10 + (c.toNat - 48)) 0)
    else none

/-- Parse of a "Mon YYYY" time period (the `%b %Y` format) as a
month-count key, monotone in chronological order; `none` models NaT. -/
def parseMonYear (s : String) : Option Nat :=
  match splitOnSpace s with
  | [m, y] =>
    match monthIndex m, parseYearChars y.toList with
    | some mi, some yr => some (yr * 12 + (mi - 1))
    | _, _ => none
  | _ => none

/-- Distinct values in first-occurrence order, skipping anything in
`seen`. -/
def uniqueFirstAux (seen : List String) : List String → List String
  | [] => []
  | h :: tl =>
    if h ∈ seen then uniqueFirstAux seen tl
    else h :: uniqueFirstAux (h :: seen) tl

/-- Distinct values in first-occurrence order (pandas `Series.unique`). -/
def uniqueFirst (l : List String) : List String := uniqueFirstAux [] l

/-- Later of a candidate period `p` and the current best `q` under the
parsed key; an unparsable candidate never displaces a parsed best
(irrelevant under the all-parse hypothesis of the theorems). -/
def laterPeriod (p q : String) : String :=
  match parseMonYear p, parseMonYear q with
  | some kp, some kq => if kq < kp then p else q
  | some _, none => p
  | _, _ => q

/-- First element of the periods sorted newest-first, i.e. a period
with maximal parsed key (ties keep the earlier occurrence, matching
the stability of `sorted`). -/
def latest_time_period (periods : List String) : Option String :=
  match periods with
  | [] => none
  | h :: tl => some (tl.foldl (fun b p => laterPeriod p b) h)

/-- Value of the first row carrying a metric name, 0 when absent
(lines 1441-1442). -/
def firstMetricValue (rows : List PeopleMetricRow) (name : String) : Rat :=
  match rows.find? (fun r => r.metric_name == name) with
  | some r => r.metric_value
  | none => 0

/-- Rows of the Employment Type category (line 1422). -/
def employmentTypeRows (rows : List PeopleMetricRow) : List PeopleMetricRow :=
  rows.filter (fun r => r.metric_category == "Employment Type")

/-- Embedding of the total-headcount computation (lines 1420-1444): 0
with no Employment Type data or a falsy (empty) latest period, else
the sum of the first Permanent Employees and first Contract Employees
values of the latest period. -/
def total_headcount_calculated (rows : List PeopleMetricRow) : Rat :=
  match latest_time_period
      (uniqueFirst ((employmentTypeRows rows).map (fun r => r.time_period))) with
  | none => 0
  | some p =>
    if p = "" then 0
    else
      firstMetricValue ((employmentTypeRows rows).filter (fun r => r.time_period == p))
          "Permanent Employees" +
        firstMetricValue ((employmentTypeRows rows).filter (fun r => r.time_period == p))
          "Contract Employees"

theorem laterPeriod_eq_or (p q : String) :
    laterPeriod p q = p ∨ laterPeriod p q = q := by
  unfold laterPeriod
  rcases hp : parseMonYear p with _ | kp <;> rcases hq : parseMonYear q with _ | kq
  · exact Or.inr rfl
  · exact Or.inr rfl
  · exact Or.inl rfl
  · by_cases h : kq < kp
    · exact Or.inl (by simp [h])
    · exact Or.inr (by simp [h])

theorem foldl_laterPeriod_mem (tl : List String) (b : String) :
    tl.foldl (fun b p => laterPeriod p b) b = b ∨
      tl.foldl (fun b p => laterPeriod p b) b ∈ tl := by
  induction tl generalizing b with
  | nil => exact Or.inl rfl
  | cons h tl ih =>
    simp only [List.foldl_cons]
    rcases ih (laterPeriod h b) with hc | hc
    · rcases laterPeriod_eq_or h b with h₂ | h₂
      · rw [hc, h₂]; exact Or.inr (by simp)
      · rw [hc, h₂]; exact Or.inl rfl
    · exact Or.inr (by simp [hc])

theorem laterPeriod_key_ge (p q : String) (kp kq : Nat)
    (hp : parseMonYear p = some kp) (hq : parseMonYear q = some kq) :
    ∃ kr, parseMonYear (laterPeriod p q) = some kr ∧ kp ≤ kr ∧ kq ≤ kr := by
  unfold laterPeriod
  rw [hp, hq]
  by_cases h : kq < kp
  · exact ⟨kp, by simp [h, hp], le_refl kp, le_of_lt h⟩
  · exact ⟨kq, by simp [h, hq], not_lt.mp h, le_refl kq⟩

theorem foldl_laterPeriod_max (tl : List String) (b : String) (kb : Nat)
    (hb : parseMonYear b = some kb)
    (hall : ∀ q ∈ tl, (parseMonYear q).isSome) :
    ∃ kr, parseMonYear (tl.foldl (fun b p => laterPeriod p b) b) = some kr ∧
      kb ≤ kr ∧ ∀ q ∈ tl, ∀ kq, parseMonYear q = some kq → kq ≤ kr := by
  induction tl generalizing b kb with
  | nil => exact ⟨kb, hb, le_refl kb, by simp⟩
  | cons h tl ih =>
    obtain ⟨kh, hkh⟩ := Option.isSome_iff_exists.mp (hall h (by simp))
    obtain ⟨k₁, hk₁, hkh₁, hkb₁⟩ := laterPeriod_key_ge h b kh kb hkh hb
    obtain ⟨kr, hkr, hk₁r, hrest⟩ := ih (laterPeriod h b) k₁ hk₁
      (fun q hq => hall q (by simp [hq]))
    refine ⟨kr, by simpa using hkr, le_trans hkb₁ hk₁r, ?_⟩
    intro q hq kq hkq
    rcases List.mem_cons.mp hq with h₂ | h₂
    · subst h₂
      rw [hkh] at hkq
      cases hkq
      exact le_trans hkh₁ hk₁r
    · exact hrest q h₂ kq hkq

theorem mem_uniqueFirstAux (l seen : List String) (a : String) :
    a ∈ uniqueFirstAux seen l ↔ (a ∈ l ∧ a ∉ seen) := by
  induction l generalizing seen with
  | nil => simp [uniqueFirstAux]
  | cons h tl ih =>
    by_cases hh : h ∈ seen
    · rw [uniqueFirstAux, if_pos hh, ih]
      constructor
      · rintro ⟨ha, hs⟩
        exact ⟨List.mem_cons_of_mem _ ha, hs⟩
      · rintro ⟨ha, hs⟩
        rcases List.mem_cons.mp ha with rfl | ha₂
        · exact absurd hh hs
        · exact ⟨ha₂, hs⟩
    · rw [uniqueFirstAux, if_neg hh]
      by_cases hah : a = h
      · subst hah
        simp [hh]
      · simp [List.mem_cons, hah, ih]

theorem mem_uniqueFirst (l : List String) (a : String) :
    a ∈ uniqueFirst l ↔ a ∈ l := by
  simp [uniqueFirst, mem_uniqueFirstAux]

/-- C1: with no Employment Type people-metric rows the reconciled
total headcount is 0; otherwise — under the hypothesis that every
Employment Type time period parses in the "Mon YYYY" format, the
setting in which the pandas newest-first sort is well defined — the
computation selects a period of the data whose parsed month-year key
is maximal and returns the Permanent Employees value plus the Contract
Employees value of that period (first matching row each, 0 when
absent). -/
theorem total_headcount_from_latest_employment_period
    (rows : List PeopleMetricRow)
    (hall : ∀ r ∈ employmentTypeRows rows, (parseMonYear r.time_period).isSome) :
    (employmentTypeRows rows = [] → total_headcount_calculated rows = 0) ∧
    (employmentTypeRows rows ≠ [] → ∃ p kp,
      (∃ r ∈ employmentTypeRows rows, r.time_period = p) ∧
      parseMonYear p = some kp ∧
      (∀ r ∈ employmentTypeRows rows, ∀ kq,
        parseMonYear r.time_period = some kq → kq ≤ kp) ∧
      total_headcount_calculated rows =
        firstMetricValue
            ((employmentTypeRows rows).filter (fun r => r.time_period == p))
            "Permanent Employees" +
          firstMetricValue
            ((employmentTypeRows rows).filter (fun r => r.time_period == p))
            "Contract Employees") := by
  constructor
  · intro h
    simp [total_headcount_calculated, h, uniqueFirst, uniqueFirstAux,
      latest_time_period]
  · intro hne
    rcases hel : employmentTypeRows rows with _ | ⟨r0, rest⟩
    · exact absurd hel hne
    rw [← hel]
    have hmap : (employmentTypeRows rows).map (fun r => r.time_period) =
        r0.time_period :: rest.map (fun r => r.time_period) := by
      rw [hel]
      rfl
    have huf : uniqueFirst ((employmentTypeRows rows).map (fun r => r.time_period)) =
        r0.time_period ::
          uniqueFirstAux [r0.time_period] (rest.map (fun r => r.time_period)) := by
      rw [hmap]
      simp [uniqueFirst, uniqueFirstAux]
    set tl := uniqueFirstAux [r0.time_period] (rest.map (fun r => r.time_period))
      with htl
    have hp0 : (parseMonYear r0.time_period).isSome := by
      refine hall r0 ?_
      rw [hel]
      simp
    obtain ⟨k0, hk0⟩ := Option.isSome_iff_exists.mp hp0
    have halltl : ∀ q ∈ tl, (parseMonYear q).isSome := by
      intro q hq
      have hq₂ : q ∈ (employmentTypeRows rows).map (fun r => r.time_period) := by
        refine (mem_uniqueFirst _ _).mp ?_
        rw [huf]
        exact List.mem_cons_of_mem _ hq
      obtain ⟨r, hr, hrq⟩ := List.mem_map.mp hq₂
      rw [← hrq]
      exact hall r hr
    obtain ⟨kp, hkp, hk0p, hmax⟩ :=
      foldl_laterPeriod_max tl r0.time_period k0 hk0 halltl
    set p := tl.foldl (fun b q => laterPeriod q b) r0.time_period with hpdef
    have hlat : latest_time_period
        (uniqueFirst ((employmentTypeRows rows).map (fun r => r.time_period))) =
        some p := by
      rw [huf]
      rfl
    have hpmem : ∃ r ∈ employmentTypeRows rows, r.time_period = p := by
      have hm : p ∈ (employmentTypeRows rows).map (fun r => r.time_period) := by
        rcases foldl_laterPeriod_mem tl r0.time_period with h | h
        · rw [hpdef, h, hmap]
          simp
        · refine (mem_uniqueFirst _ _).mp ?_
          rw [huf]
          exact List.mem_cons_of_mem _ (by rw [hpdef]; exact h)
      obtain ⟨r, hr, hrq⟩ := List.mem_map.mp hm
      exact ⟨r, hr, hrq⟩
    have hpne : p ≠ "" := by
      intro hcontra
      rw [hcontra, show parseMonYear "" = none from rfl] at hkp
      exact Option.noConfusion hkp
    refine ⟨p, kp, hpmem, hkp, ?_, ?_⟩
    · intro r hr kq hkq
      have hmemmap : r.time_period ∈
          (employmentTypeRows rows).map (fun r => r.time_period) :=
        List.mem_map_of_mem _ hr
      have hmemcons : r.time_period ∈ r0.time_period :: tl := by
        rw [← huf]
        exact (mem_uniqueFirst _ _).mpr hmemmap
      rcases List.mem_cons.mp hmemcons with h | h
      · rw [h, hk0] at hkq
        injection hkq with hinj
        rw [← hinj]
        exact hk0p
      · exact hmax _ h kq hkq
    · unfold total_headcount_calculated
      rw [hlat]
      exact if_neg hpne

/-- People-metric rows of the AKQA scenario: Employment Type metrics
Permanent Employees = 80 and Contract Employees = 20 for "Jan 2025". -/
def akqaRows : List PeopleMetricRow :=
  [⟨"Permanent Employees", 80, "Employment Type", "Jan 2025"⟩,
   ⟨"Contract Employees", 20, "Employment Type", "Jan 2025"⟩]

/-- Witness for `total_headcount_from_latest_employment_period` on the
AKQA scenario: both hypotheses hold, the theorem applies, and the
reconciled total headcount evaluates to 100. -/
theorem total_headcount_from_latest_employment_period_witness :
    (∀ r ∈ employmentTypeRows akqaRows, (parseMonYear r.time_period).isSome) ∧
    employmentTypeRows akqaRows ≠ [] ∧
    (∃ p kp,
      (∃ r ∈ employmentTypeRows akqaRows, r.time_period = p) ∧
      parseMonYear p = some kp ∧
      (∀ r ∈ employmentTypeRows akqaRows, ∀ kq,
        parseMonYear r.time_period = some kq → kq ≤ kp) ∧
      total_headcount_calculated akqaRows =
        firstMetricValue
            ((employmentTypeRows akqaRows).filter (fun r => r.time_period == p))
            "Permanent Employees" +
          firstMetricValue
            ((employmentTypeRows akqaRows).filter (fun r => r.time_period == p))
            "Contract Employees") ∧
    total_headcount_calculated akqaRows = 100 :=
  ⟨by decide, by decide,
    (total_headcount_from_latest_employment_period akqaRows (by decide)).2
      (by decide),
    by
      have h : total_headcount_calculated akqaRows = 80 + 20 := by rfl
      rw [h]
      norm_num⟩

/-! ## Failure policy of the column additions (src/_form.py lines
114-127, 329-385, 412-418)

`setup_database` performs fourteen guarded column additions.  Exactly
one of them — `headcount` on `hub_capabilities`, line 350 — goes
through `add_column_if_not_exists`, whose try/except swallows an
`OperationalError`.  The other thirteen call `cursor.execute("ALTER
TABLE ...")` directly, guarded only by a PRAGMA column-list check, so
a failure of the statement itself (the race the spec describes: the
column appears between the PRAGMA read and the ALTER) propagates and
aborts the rest of `setup_database`.  The model runs the additions in
source order against a failure oracle saying which ALTER statements
raise, recording which additions were attempted and whether the run
aborted; the non-ALTER statements interleaved in the source are elided
(an abort skips them too). -/

/-- One guarded column addition of `setup_database`; `safe` marks the
single one routed through `add_column_if_not_exists`. -/
structure AddStep where
  table : String
  col : String
  safe : Bool
deriving DecidableEq

/-- The column additions of `setup_database`, in source order. -/
def migrationAddSteps : List AddStep :=
  [⟨"hub_metrics", "bench_count", false⟩,
   ⟨"hub_metrics", "location_headcounts", false⟩,
   ⟨"hub_metrics", "certifications", false⟩,
   ⟨"hub_metrics", "metrics_updated_at", false⟩,
   ⟨"hub_metrics", "location_updated_at", false⟩,
   ⟨"hub_metrics", "certifications_updated_at", false⟩,
   ⟨"hub_capabilities", "capability_updated_at", false⟩,
   ⟨"hub_capabilities", "headcount", true⟩,
   ⟨"client_metrics", "employee_count", false⟩,
   ⟨"client_metrics", "client_updated_at", false⟩,
   ⟨"client_metrics", "capability_name", false⟩,
   ⟨"client_metrics", "relationship_duration", false⟩,
   ⟨"people_metrics", "date_created", false⟩,
   ⟨"people_metrics", "people_metric_updated_at", false⟩]

/-- Run the additions against a failure oracle: a failing safe step is
swallowed (try/except pass) and the run continues; a failing direct
ALTER raises, ending the run (aborted = true).  Returns the attempted
(table, column) pairs and the aborted flag. -/
def runAdds (fails : String → String → Bool) :
    List AddStep → List (String × String) × Bool
  | [] => ([], false)
  | s :: rest =>
    if fails s.table s.col then
      if s.safe then
        ((s.table, s.col) :: (runAdds fails rest).1, (runAdds fails rest).2)
      else ([(s.table, s.col)], true)
    else ((s.table, s.col) :: (runAdds fails rest).1, (runAdds fails rest).2)

/-- C6 counterexample: a failure adding `hub_metrics.bench_count` (the
first direct ALTER) is not swallowed: the run aborts and none of the
thirteen remaining column additions is attempted — refuting that every
column add is attempted independently with failures swallowed. -/
theorem runAdds_direct_failure_aborts :
    (runAdds (fun t c => t == "hub_metrics" && c == "bench_count")
        migrationAddSteps).2 = true ∧
      (runAdds (fun t c => t == "hub_metrics" && c == "bench_count")
        migrationAddSteps).1 = [("hub_metrics", "bench_count")] := by
  refine ⟨?_, ?_⟩ <;> decide

/-- C6 amended: the failure-swallowing policy holds only for the
additions routed through `add_column_if_not_exists` (the `safe` steps;
in this source exactly `hub_capabilities.headcount`): whenever every
failing step is a safe one, the run never aborts and every addition of
the sequence is attempted, the safe failures being swallowed. -/
theorem runAdds_safe_failures_swallowed (fails : String → String → Bool)
    (h : ∀ s ∈ migrationAddSteps, s.safe = false → fails s.table s.col = false) :
    (runAdds fails migrationAddSteps).2 = false ∧
      (runAdds fails migrationAddSteps).1 =
        migrationAddSteps.map (fun s => (s.table, s.col)) := by
  have hgen : ∀ steps : List AddStep,
      (∀ s ∈ steps, s.safe = false → fails s.table s.col = false) →
      (runAdds fails steps).2 = false ∧
        (runAdds fails steps).1 = steps.map (fun s => (s.table, s.col)) := by
    intro steps hsteps
    induction steps with
    | nil => exact ⟨rfl, rfl⟩
    | cons s rest ih =>
      have hrest := ih (fun q hq hqs => hsteps q (List.mem_cons_of_mem _ hq) hqs)
      by_cases hf : fails s.table s.col = true
      · have hsafe : s.safe = true := by
          by_contra hns
          have := hsteps s (by simp) (by simpa using hns)
          rw [this] at hf
          exact Bool.noConfusion hf
        rw [runAdds, if_pos hf, if_pos hsafe]
        exact ⟨hrest.1, by rw [hrest.2]; rfl⟩
      · rw [runAdds, if_neg hf]
        exact ⟨hrest.1, by rw [hrest.2]; rfl⟩
  exact hgen migrationAddSteps h

/-- Witness for `runAdds_safe_failures_swallowed`: an oracle failing
exactly on the safe `hub_capabilities.headcount` step satisfies the
hypothesis, and the run attempts all fourteen additions without
aborting. -/
theorem runAdds_safe_failures_swallowed_witness :
    (∀ s ∈ migrationAddSteps, s.safe = false →
      (fun t c => t == "hub_capabilities" && c == "headcount") s.table s.col
        = false) ∧
    (runAdds (fun t c => t == "hub_capabilities" && c == "headcount")
        migrationAddSteps).2 = false ∧
      (runAdds (fun t c => t == "hub_capabilities" && c == "headcount")
        migrationAddSteps).1 =
        migrationAddSteps.map (fun s => (s.table, s.col)) :=
  ⟨by decide,
    runAdds_safe_failures_swallowed
      (fun t c => t == "hub_capabilities" && c == "headcount") (by decide)⟩

/-! ## Database setup: schema evolution and seeding (src/_form.py
lines 56-418)

`setup_database` in model form.  The six tables (CREATE TABLE IF NOT
EXISTS statements, lines 67-180), the guarded column additions, the
hub/user seeding and the timestamp backfill are translated step by
step; PRAGMA statements configure the engine and carry no modelled
state.  The source interleaves the three legacy hub-metrics column
additions (lines 114-127) between the CREATE statements; the steps
touch distinct tables, so they are grouped here with the creates
(`phase1`) without changing the result.  `hashlib.sha256(...)
.hexdigest()` is modelled abstractly by an injective tagging function,
its only property used being determinism. -/

/-- Database: the six tables, absent until created. -/
structure DB where
  users : Option Table
  hubs : Option Table
  hub_metrics : Option Table
  hub_capabilities : Option Table
  client_metrics : Option Table
  people_metrics : Option Table
deriving DecidableEq

/-- Table view of an optional table (the operations in scope run after
the creates, so the `none` case is unreachable there; the empty
default keeps the model total). -/
def tbl (ot : Option Table) : Table := ot.getD ⟨[], []⟩

/-- Apply a table operation under `Option`. -/
def onTable (f : Table → Table) : Option Table → Option Table
  | none => none
  | some t => some (f t)

/-- CREATE TABLE IF NOT EXISTS. -/
def createIfAbsent (ot : Option Table) (schema : List ColDef) : Option Table :=
  match ot with
  | none => some ⟨schema, []⟩
  | some t => some t

/-- Columns of CREATE TABLE users (lines 67-76). -/
def usersSchema : List ColDef :=
  [⟨"id", .noneD⟩, ⟨"username", .noneD⟩, ⟨"password_hash", .noneD⟩,
   ⟨"hub_name", .noneD⟩, ⟨"is_admin", .intD 0⟩, ⟨"created_at", .nowD⟩]

/-- Columns of CREATE TABLE hubs (lines 79-86). -/
def hubsSchema : List ColDef :=
  [⟨"id", .noneD⟩, ⟨"hub_name", .noneD⟩, ⟨"created_at", .nowD⟩,
   ⟨"updated_at", .nowD⟩]

/-- Columns of CREATE TABLE hub_metrics (lines 89-112). -/
def hubMetricsSchema : List ColDef :=
  [⟨"id", .noneD⟩, ⟨"hub_id", .noneD⟩, ⟨"total_headcount", .noneD⟩,
   ⟨"total_seats", .noneD⟩, ⟨"total_clients", .noneD⟩,
   ⟨"services_offered", .noneD⟩, ⟨"female_percent", .noneD⟩,
   ⟨"male_percent", .noneD⟩, ⟨"other_gender_percent", .noneD⟩,
   ⟨"campus_type", .noneD⟩, ⟨"sez_status", .noneD⟩, ⟨"location", .noneD⟩,
   ⟨"coverage_hours", .noneD⟩, ⟨"transport_facilities", .noneD⟩,
   ⟨"updated_at", .nowD⟩, ⟨"updated_by", .noneD⟩, ⟨"bench_count", .intD 0⟩,
   ⟨"location_headcounts", .noneD⟩, ⟨"certifications", .noneD⟩]

/-- Columns of CREATE TABLE hub_capabilities (lines 130-143). -/
def hubCapabilitiesSchema : List ColDef :=
  [⟨"id", .noneD⟩, ⟨"hub_id", .noneD⟩, ⟨"capability_name", .noneD⟩,
   ⟨"capability_category", .noneD⟩, ⟨"headcount", .intD 0⟩,
   ⟨"updated_at", .nowD⟩, ⟨"updated_by", .noneD⟩,
   ⟨"capability_updated_at", .nowD⟩]

/-- Columns of CREATE TABLE client_metrics (lines 146-162). -/
def clientMetricsSchema : List ColDef :=
  [⟨"id", .noneD⟩, ⟨"hub_id", .noneD⟩, ⟨"client_name", .noneD⟩,
   ⟨"engagement_status", .noneD⟩, ⟨"commercial_model", .noneD⟩,
   ⟨"capability_category", .noneD⟩, ⟨"capability_name", .noneD⟩,
   ⟨"relationship_duration", .noneD⟩, ⟨"scope_summary", .noneD⟩,
   ⟨"updated_at", .nowD⟩, ⟨"updated_by", .noneD⟩]

/-- Columns of CREATE TABLE people_metrics (lines 165-180). -/
def peopleMetricsSchema : List ColDef :=
  [⟨"id", .noneD⟩, ⟨"hub_id", .noneD⟩, ⟨"metric_name", .noneD⟩,
   ⟨"metric_value", .noneD⟩, ⟨"metric_category", .noneD⟩,
   ⟨"time_period", .noneD⟩, ⟨"hiring_reason", .noneD⟩,
   ⟨"updated_at", .nowD⟩, ⟨"updated_by", .noneD⟩,
   ⟨"people_metric_updated_at", .nowD⟩]

/-- Legacy hub-metrics column additions (lines 114-127). -/
def hubMetricsEarlyAdds (t : Table) : Table :=
  addColIfMissing
    (addColIfMissing (addColIfMissing t ⟨"bench_count", .intD 0⟩ (.int 0))
      ⟨"location_headcounts", .noneD⟩ .null)
    ⟨"certifications", .noneD⟩ .null

/-- Default capability taxonomy (lines 183-211). -/
def capabilitiesData : List (String × String) :=
  [("Ad Operations", "MEDIA+"), ("Media Reporting", "MEDIA+"),
   ("SEO", "MEDIA+"), ("Media Activation", "MEDIA+"),
   ("Retail Media", "MEDIA+"), ("Paid Search", "MEDIA+"),
   ("Commerce", "MEDIA+"), ("Programmatic", "MEDIA+"),
   ("Analytics & Insights", "MEDIA+"),
   ("Language Services", "CONTENT+"), ("Post-production", "CONTENT+"),
   ("Transcreation", "CONTENT+"), ("Adaptation", "CONTENT+"),
   ("Content for Commerce", "CONTENT+"),
   ("Experience Platforms", "CX+"), ("Commerce Platforms", "CX+"),
   ("Marketing Automation", "CX+"), ("Engineering Services", "CX+"),
   ("Creative Technology", "CX+"), ("CRM", "CX+"), ("DevOps", "CX+"),
   ("Quality Engineering", "CX+")]

/-- Default organizational units (lines 216-224). -/
def defaultHubs : List String :=
  ["AKQA", "Mirum Digital Pvt Ltd", "GroupM Nexus Global Team",
   "Hogarth Worldwide", "Hogarth Studios", "Verticurl",
   "VML-Tech Commerce"]

/-- Sample clients seeded per hub (line 266). -/
def sampleClients : List String :=
  ["Client 1", "Client 2", "Client 3", "Client 4", "Client 5"]

/-- People-metric starter rows (lines 274-297): name, category,
period, value. -/
def defaultPeopleMetrics : List (String × String × String × Rat) :=
  [("Tenure <1 year", "Tenure", "2025", 25),
   ("Tenure 1-2 years", "Tenure", "2025", 22),
   ("Tenure 2-3 years", "Tenure", "2025", 18),
   ("Tenure 3-5 years", "Tenure", "2025", 15),
   ("Tenure 5-7 years", "Tenure", "2025", 10),
   ("Tenure 7-10 years", "Tenure", "2025", 5),
   ("Tenure 10+ years", "Tenure", "2025", 3),
   ("Permanent Employees", "Employment Type", "2025", 75),
   ("Contract Employees", "Employment Type", "2025", 25),
   ("Single", "Marital Status", "2025", 55),
   ("Married", "Marital Status", "2025", 40),
   ("Other Marital Status", "Marital Status", "2025", 5)]

/-- Prefix test on character lists. -/
def isPrefixChars : List Char → List Char → Bool
  | [], _ => true
  | _ :: _, [] => false
  | a :: as, b :: bs => a == b && isPrefixChars as bs

/-- Substring search on character lists. -/
def containsChars (pat : List Char) : List Char → Bool
  | [] => pat.isEmpty
  | c :: rest => isPrefixChars pat (c :: rest) || containsChars pat rest

/-- Python `pat in s` on strings. -/
def strContains (s pat : String) : Bool := containsChars pat.toList s.toList

/-- Campus type of a seeded hub (line 243). -/
def campusType (h : String) : String :=
  if strContains h "AKQA" || strContains h "GroupM" ||
      strContains h "VML-Tech Commerce" || strContains h "Hogarth Studios" then
    "In-Campus"
  else "Outside-Campus"

/-- SEZ status of a seeded hub (line 244). -/
def sezStatus (h : String) : String :=
  if strContains h "Hogarth Worldwide" then "Yes" else "No"

/-- Location of a seeded hub (lines 245-247). -/
def locationOf (h : String) : String :=
  if strContains h "Hogarth Worldwide" then "Chennai, Hyderabad, Gurugram"
  else if strContains h "Verticurl" then "Coimbatore, Hyderabad, Gurugram"
  else if strContains h "Mirum" then "Mumbai and Gurugram"
  else "Gurugram"

/-- Transport facilities of a seeded hub (line 249). -/
def transportOf (h : String) : String :=
  if strContains h "Hogarth" || strContains h "Verticurl" then "Yes" else "No"

/-- Primary capability category of a seeded hub (lines 253-255). -/
def primaryCategory (h : String) : String :=
  if strContains h "AKQA" || strContains h "Mirum" ||
      strContains h "VML-Tech Commerce" || strContains h "Verticurl" then "CX+"
  else if strContains h "GroupM" then "MEDIA+"
  else if strContains h "Hogarth" then "CONTENT+"
  else "CX+"

/-- Abstract stand-in for `hashlib.sha256(s.encode()).hexdigest()`; an
injective tag whose only used property is determinism. -/
def sha256_hex (s : String) : String := "sha256:" ++ s

/-- Per-unit username (line 320): lowercase, spaces to underscores. -/
def lowerUnderscore (s : String) : String :=
  String.mk (s.toList.map (fun c => if c = ' ' then '_' else c.toLower))

/-- Capability INSERT of the seed loop (lines 260-263). -/
def capInsert (now : String) (hub_id : Value) (t : Table)
    (cd : String × String) : Table :=
  insertRow now t
    [("hub_id", hub_id), ("capability_name", .text cd.1),
     ("capability_category", .text cd.2), ("headcount", .int 0)]

/-- Client INSERT of the seed loop (lines 268-271). -/
def clientInsert (now : String) (hub_id : Value) (cat : String) (t : Table)
    (cname : String) : Table :=
  insertRow now t
    [("hub_id", hub_id), ("client_name", .text cname),
     ("engagement_status", .text "Active"), ("commercial_model", .text "FTE"),
     ("capability_category", .text cat),
     ("scope_summary", .text "Sample scope details")]

/-- People-metric INSERT of the seed loop (lines 300-303). -/
def pplInsert (now : String) (hub_id : Value) (t : Table)
    (m : String × String × String × Rat) : Table :=
  insertRow now t
    [("hub_id", hub_id), ("metric_name", .text m.1),
     ("metric_value", .real m.2.2.2), ("metric_category", .text m.2.1),
     ("time_period", .text m.2.2.1)]

/-- Seed one default hub (lines 226-303): insert the hub row, read its
id back by name, and insert the default hub-metrics row, the
capabilities of the primary category, five sample clients and the
people-metric starter rows. -/
def seedOneHub (now : String) (db : DB) (hub_name : String) : DB :=
  let hubsT := insertRow now (tbl db.hubs) [("hub_name", .text hub_name)]
  let hub_id :=
    match hubsT.rows.find? (fun r => valueEq (getVal r "hub_name") (.text hub_name)) with
    | some r => getVal r "id"
    | none => Value.null
  let hmT := insertRow now (tbl db.hub_metrics)
    [("hub_id", hub_id), ("total_headcount", .int 95), ("total_seats", .int 76),
     ("total_clients", .int 12), ("services_offered", .int 8),
     ("female_percent", .real 35), ("male_percent", .real 63),
     ("other_gender_percent", .real 2),
     ("campus_type", .text (campusType hub_name)),
     ("sez_status", .text (sezStatus hub_name)),
     ("location", .text (locationOf hub_name)),
     ("coverage_hours", .text "24x5"),
     ("transport_facilities", .text (transportOf hub_name))]
  let capT := (capabilitiesData.filter
      (fun cd => cd.2 == primaryCategory hub_name)).foldl
    (capInsert now hub_id) (tbl db.hub_capabilities)
  let clientT := sampleClients.foldl
    (clientInsert now hub_id (primaryCategory hub_name))
    (tbl db.client_metrics)
  let pplT := defaultPeopleMetrics.foldl (pplInsert now hub_id)
    (tbl db.people_metrics)
  { db with
    hubs := some hubsT
    hub_metrics := some hmT
    hub_capabilities := some capT
    client_metrics := some clientT
    people_metrics := some pplT }

/-- Hub seeding (lines 213-303): only when the hubs table is empty. -/
def seedHubsStep (now : String) (db : DB) : DB :=
  if (tbl db.hubs).rows.length == 0 then
    defaultHubs.foldl (seedOneHub now) db
  else db

/-- Per-hub user INSERT of the user seeding loop (lines 319-327). -/
def hubUserInsert (now : String) (t : Table) (r : Row) : Table :=
  let username := lowerUnderscore (asText (getVal r "hub_name"))
  insertRow now t
    [("username", .text username),
     ("password_hash", .text (sha256_hex (username ++ "123"))),
     ("hub_name", .text (asText (getVal r "hub_name"))),
     ("is_admin", .int 0)]

/-- User seeding (lines 305-327): only when the users table is empty;
one admin plus one user per hubs row. -/
def seedUsersStep (now : String) (db : DB) : DB :=
  if (tbl db.users).rows.length == 0 then
    let usersT := insertRow now (tbl db.users)
      [("username", .text "admin"),
       ("password_hash", .text (sha256_hex "admin123")),
       ("hub_name", .text "ALL"), ("is_admin", .int 1)]
    let usersT := (tbl db.hubs).rows.foldl (hubUserInsert now) usersT
    { db with users := some usersT }
  else db

/-- Creates plus the legacy hub-metrics additions (lines 67-180 and
114-127; the steps touch distinct tables, so the interleaving of the
source is immaterial). -/
def phase1 (db : DB) : DB :=
  { users := createIfAbsent db.users usersSchema
    hubs := createIfAbsent db.hubs hubsSchema
    hub_metrics := onTable hubMetricsEarlyAdds
      (createIfAbsent db.hub_metrics hubMetricsSchema)
    hub_capabilities := createIfAbsent db.hub_capabilities hubCapabilitiesSchema
    client_metrics := createIfAbsent db.client_metrics clientMetricsSchema
    people_metrics := createIfAbsent db.people_metrics peopleMetricsSchema }

/-- Timestamp additions for hub_metrics (lines 329-341). -/
def hubMetricsTsAdds (t : Table) : Table :=
  addColIfMissing
    (addColIfMissing (addColIfMissing t ⟨"metrics_updated_at", .noneD⟩ .null)
      ⟨"location_updated_at", .noneD⟩ .null)
    ⟨"certifications_updated_at", .noneD⟩ .null

/-- Column additions for hub_capabilities (lines 343-350); `headcount`
is the one routed through `add_column_if_not_exists`. -/
def hubCapabilitiesAdds (t : Table) : Table :=
  addColIfMissing (addColIfMissing t ⟨"capability_updated_at", .noneD⟩ .null)
    ⟨"headcount", .intD 0⟩ (.int 0)

/-- Column additions for client_metrics (lines 352-370). -/
def clientMetricsAdds (t : Table) : Table :=
  addColIfMissing
    (addColIfMissing
      (addColIfMissing (addColIfMissing t ⟨"employee_count", .intD 0⟩ (.int 0))
        ⟨"client_updated_at", .noneD⟩ .null)
      ⟨"capability_name", .noneD⟩ .null)
    ⟨"relationship_duration", .noneD⟩ .null

/-- Column additions for people_metrics (lines 372-385): adding
`date_created` also backfills it from `updated_at` in the same branch. -/
def peopleMetricsAdds (t : Table) : Table :=
  let t₂ :=
    if hasCol t "date_created" then t
    else
      updateRows (addColIfMissing t ⟨"date_created", .noneD⟩ .null)
        (fun r => isNull (getVal r "date_created"))
        (fun r => setVal r "date_created" (getVal r "updated_at"))
  addColIfMissing t₂ ⟨"people_metric_updated_at", .noneD⟩ .null

/-- Column-addition phase (lines 329-385). -/
def phase3 (db : DB) : DB :=
  { db with
    hub_metrics := onTable hubMetricsTsAdds db.hub_metrics
    hub_capabilities := onTable hubCapabilitiesAdds db.hub_capabilities
    client_metrics := onTable clientMetricsAdds db.client_metrics
    people_metrics := onTable peopleMetricsAdds db.people_metrics }

/-- SET every listed column to the current time (line 409). -/
def setColsNow (now : String) (cols : List String) (r : Row) : Row :=
  applySets (cols.map (fun c => (c, Value.text now))) r

/-- WHERE clause of the backfill SELECT (line 400): any listed column
NULL. -/
def rowAnyNull (cols : List String) (r : Row) : Bool :=
  cols.any (fun c => isNull (getVal r c))

/-- Backfill of one table (lines 399-410): select the ids of rows with
a NULL timestamp, then set every listed column to the current time row
by row. -/
def backfillTable (now : String) (cols : List String) (t : Table) : Table :=
  let ids := t.rows.filterMap
    (fun r => if rowAnyNull cols r then some (getVal r "id") else none)
  ids.foldl
    (fun t id =>
      updateRows t (fun r => valueEq (getVal r "id") id) (setColsNow now cols))
    t

/-- Timestamp columns each table backfills (lines 388-393). -/
def hmTsCols : List String :=
  ["metrics_updated_at", "location_updated_at", "certifications_updated_at"]

/-- Backfill phase over the four tables (lines 387-410). -/
def backfillStep (now : String) (db : DB) : DB :=
  { db with
    hub_metrics := onTable (backfillTable now hmTsCols) db.hub_metrics
    hub_capabilities :=
      onTable (backfillTable now ["capability_updated_at"]) db.hub_capabilities
    client_metrics :=
      onTable (backfillTable now ["client_updated_at"]) db.client_metrics
    people_metrics :=
      onTable (backfillTable now ["people_metric_updated_at"]) db.people_metrics }

/-- Embedding of `setup_database` (lines 56-410): creates and legacy
additions, hub seeding, user seeding, column additions, timestamp
backfill, in source order. -/
def setup_database (now : String) (db : DB) : DB :=
  backfillStep now (phase3 (seedUsersStep now (seedHubsStep now (phase1 db))))

/-- The empty store. -/
def emptyDB : DB := ⟨none, none, none, none, none, none⟩

/-- Row counts of every table (the observation of the seed-loader
claim). -/
def rowCounts (db : DB) : List (String × Nat) :=
  [("users", (tbl db.users).rows.length),
   ("hubs", (tbl db.hubs).rows.length),
   ("hub_metrics", (tbl db.hub_metrics).rows.length),
   ("hub_capabilities", (tbl db.hub_capabilities).rows.length),
   ("client_metrics", (tbl db.client_metrics).rows.length),
   ("people_metrics", (tbl db.people_metrics).rows.length)]

/-- Base-schema compatibility of a table (a store produced by this
application always satisfies it). -/
def tableHasBase (ot : Option Table) (schema : List ColDef) : Bool :=
  match ot with
  | none => true
  | some t => schema.all (fun cd => hasCol t cd.name)

/-- Scope of the idempotence statement: every existing table carries
its base columns and hub names are text — exactly the stores on which
the Python INSERT/SELECT statements of `setup_database` are
well-defined (on others the source would raise, which the total model
does not represent). -/
def wellFormed (db : DB) : Bool :=
  tableHasBase db.users usersSchema && tableHasBase db.hubs hubsSchema &&
  tableHasBase db.hub_metrics hubMetricsSchema &&
  tableHasBase db.hub_capabilities hubCapabilitiesSchema &&
  tableHasBase db.client_metrics clientMetricsSchema &&
  tableHasBase db.people_metrics peopleMetricsSchema &&
  (match db.hubs with
   | none => true
   | some t => t.rows.all (fun r =>
      match getVal r "hub_name" with
      | .text _ => true
      | _ => false))

theorem tbl_some (t : Table) : tbl (some t) = t := rfl

theorem createIfAbsent_isSome (ot : Option Table) (s : List ColDef) :
    (createIfAbsent ot s).isSome = true := by
  cases ot <;> rfl

theorem createIfAbsent_some (t : Table) (s : List ColDef) :
    createIfAbsent (some t) s = some t := rfl

theorem onTable_some (f : Table → Table) (t : Table) :
    onTable f (some t) = some (f t) := rfl

theorem addColIfMissing_of_hasCol (t : Table) (cd : ColDef) (v : Value)
    (h : hasCol t cd.name = true) : addColIfMissing t cd v = t := by
  unfold addColIfMissing
  rw [if_pos h]

theorem hasCol_addColIfMissing_self (t : Table) (cd : ColDef) (v : Value) :
    hasCol (addColIfMissing t cd v) cd.name = true := by
  unfold addColIfMissing
  by_cases h : hasCol t cd.name = true
  · rw [if_pos h]
    exact h
  · rw [if_neg h]
    simp [hasCol, List.any_append]

theorem hasCol_addColIfMissing_mono (t : Table) (cd : ColDef) (v : Value)
    (c : String) (h : hasCol t c = true) :
    hasCol (addColIfMissing t cd v) c = true := by
  unfold addColIfMissing
  by_cases hg : hasCol t cd.name = true
  · rw [if_pos hg]
    exact h
  · rw [if_neg hg]
    simp only [hasCol] at h ⊢
    rw [List.any_append, h]
    rfl

theorem insertRow_cols (now : String) (t : Table) (a : List (String × Value)) :
    (insertRow now t a).cols = t.cols := rfl

theorem insertRow_rows_length (now : String) (t : Table)
    (a : List (String × Value)) :
    (insertRow now t a).rows.length = t.rows.length + 1 := by
  simp [insertRow]

theorem updateRows_cols (t : Table) (p : Row → Bool) (f : Row → Row) :
    (updateRows t p f).cols = t.cols := rfl

theorem foldl_table_cols (f : Table → α → Table)
    (hf : ∀ t x, (f t x).cols = t.cols) :
    ∀ (l : List α) (t : Table), (l.foldl f t).cols = t.cols := by
  intro l
  induction l with
  | nil => intro t; rfl
  | cons x xs ih =>
    intro t
    rw [List.foldl_cons, ih, hf]

theorem foldl_table_rows_length (f : Table → α → Table)
    (hf : ∀ t x, (f t x).rows.length = t.rows.length + 1) :
    ∀ (l : List α) (t : Table), (l.foldl f t).rows.length =
      t.rows.length + l.length := by
  intro l
  induction l with
  | nil => intro t; rfl
  | cons x xs ih =>
    intro t
    rw [List.foldl_cons, ih, hf]
    simp [Nat.add_comm, Nat.add_assoc]
    omega

theorem getVal_setColsNow_mem (now : String) (cols : List String) (r : Row)
    (c : String) (h : c ∈ cols) :
    getVal (setColsNow now cols r) c = Value.text now := by
  induction cols generalizing r with
  | nil => simp at h
  | cons c₀ rest ih =>
    by_cases hr : c ∈ rest
    · simpa [setColsNow, applySets] using ih (setVal r c₀ (Value.text now)) hr
    · have hc : c = c₀ := by
        rcases List.mem_cons.mp h with h₂ | h₂
        · exact h₂
        · exact absurd h₂ hr
      subst hc
      have hnm : ∀ p ∈ rest.map (fun c => (c, Value.text now)), p.1 ≠ c := by
        intro p hp
        obtain ⟨q, hq, hqp⟩ := List.mem_map.mp hp
        rw [← hqp]
        intro hcontra
        exact hr (hcontra ▸ hq)
      show getVal (applySets ((c, Value.text now) :: rest.map
        (fun c => (c, Value.text now))) r) c = Value.text now
      rw [show applySets ((c, Value.text now) :: rest.map
          (fun c => (c, Value.text now))) r =
        applySets (rest.map (fun c => (c, Value.text now)))
          (setVal r c (Value.text now)) from rfl]
      rw [getVal_applySets_notmem _ _ _ hnm, getVal_setVal_self]

theorem getVal_setColsNow_notmem (now : String) (cols : List String) (r : Row)
    (c : String) (h : c ∉ cols) :
    getVal (setColsNow now cols r) c = getVal r c := by
  unfold setColsNow
  apply getVal_applySets_notmem
  intro p hp
  obtain ⟨q, hq, hqp⟩ := List.mem_map.mp hp
  rw [← hqp]
  intro hcontra
  exact h (hcontra ▸ hq)

theorem rowAnyNull_setColsNow (now : String) (cols : List String) (r : Row) :
    rowAnyNull cols (setColsNow now cols r) = false := by
  rw [rowAnyNull, List.any_eq_false]
  intro c hc
  rw [getVal_setColsNow_mem now cols r c hc]
  simp [isNull]

theorem backfillTable_cols (now : String) (cols : List String) (t : Table) :
    (backfillTable now cols t).cols = t.cols := by
  unfold backfillTable
  exact foldl_table_cols
    (fun t id => updateRows t (fun r => valueEq (getVal r "id") id)
      (setColsNow now cols))
    (fun t id => rfl) _ t

theorem backfill_foldl_clears (now : String) (cols : List String)
    (hid : "id" ∉ cols) :
    ∀ (ids : List Value) (t : Table),
      (∀ r ∈ t.rows, rowAnyNull cols r = false ∨ getVal r "id" ∈ ids) →
      ∀ r ∈ (ids.foldl (fun t id => updateRows t
          (fun r => valueEq (getVal r "id") id) (setColsNow now cols)) t).rows,
        rowAnyNull cols r = false := by
  intro ids
  induction ids with
  | nil =>
    intro t hinv r hr
    rcases hinv r hr with h | h
    · exact h
    · simp at h
  | cons id rest ih =>
    intro t hinv
    rw [List.foldl_cons]
    apply ih
    intro r₂ hr₂
    obtain ⟨r, hr, hrf⟩ := List.mem_map.mp hr₂
    by_cases hpred : valueEq (getVal r "id") id = true
    · rw [← hrf]
      simp only [hpred, if_true]
      left
      have hidv : getVal (setColsNow now cols r) "id" = getVal r "id" :=
        getVal_setColsNow_notmem now cols r "id" hid
      exact rowAnyNull_setColsNow now cols r
    · rw [← hrf]
      simp only [hpred, if_false]
      rcases hinv r hr with h | h
      · exact Or.inl h
      · right
        rcases List.mem_cons.mp h with h₂ | h₂
        · exfalso
          apply hpred
          rw [h₂, valueEq]
          simp
        · exact h₂

theorem backfillTable_clears (now : String) (cols : List String) (t : Table)
    (hid : "id" ∉ cols) :
    ∀ r ∈ (backfillTable now cols t).rows, rowAnyNull cols r = false := by
  unfold backfillTable
  apply backfill_foldl_clears now cols hid
  intro r hr
  by_cases h : rowAnyNull cols r = true
  · right
    exact List.mem_filterMap.mpr ⟨r, hr, by rw [if_pos h]⟩
  · left
    simpa using h

theorem backfillTable_id (now : String) (cols : List String) (t : Table)
    (h : ∀ r ∈ t.rows, rowAnyNull cols r = false) :
    backfillTable now cols t = t := by
  unfold backfillTable
  have hids : t.rows.filterMap
      (fun r => if rowAnyNull cols r then some (getVal r "id") else none) = [] := by
    rw [List.filterMap_eq_nil_iff]
    intro r hr
    rw [if_neg (by rw [h r hr]; exact Bool.false_ne_true)]
  rw [hids]
  rfl

theorem createIfAbsent_of_isSome (ot : Option Table) (s : List ColDef)
    (h : ot.isSome = true) : createIfAbsent ot s = ot := by
  cases ot with
  | none => simp at h
  | some t => rfl

theorem seedOneHub_users (now : String) (db : DB) (h : String) :
    (seedOneHub now db h).users = db.users := rfl

theorem seedOneHub_hubs_cols (now : String) (db : DB) (h : String) :
    (tbl (seedOneHub now db h).hubs).cols = (tbl db.hubs).cols := rfl

theorem seedOneHub_hm_cols (now : String) (db : DB) (h : String) :
    (tbl (seedOneHub now db h).hub_metrics).cols = (tbl db.hub_metrics).cols := rfl

theorem seedOneHub_cap_cols (now : String) (db : DB) (h : String) :
    (tbl (seedOneHub now db h).hub_capabilities).cols =
      (tbl db.hub_capabilities).cols := by
  exact foldl_table_cols (capInsert now _) (fun _ _ => rfl) _ _

theorem seedOneHub_client_cols (now : String) (db : DB) (h : String) :
    (tbl (seedOneHub now db h).client_metrics).cols =
      (tbl db.client_metrics).cols := by
  exact foldl_table_cols (clientInsert now _ _) (fun _ _ => rfl) _ _

theorem seedOneHub_ppl_cols (now : String) (db : DB) (h : String) :
    (tbl (seedOneHub now db h).people_metrics).cols =
      (tbl db.people_metrics).cols := by
  exact foldl_table_cols (pplInsert now _) (fun _ _ => rfl) _ _

theorem seedOneHub_hubs_length (now : String) (db : DB) (h : String) :
    (tbl (seedOneHub now db h).hubs).rows.length =
      (tbl db.hubs).rows.length + 1 :=
  insertRow_rows_length now (tbl db.hubs) [("hub_name", Value.text h)]

/-- Facts preserved or established by folding `seedOneHub` over a list
of hub names: the users table is untouched, every other table stays
present with its columns unchanged, and the hubs table gains one row
per name. -/
theorem foldl_seedOneHub_facts (now : String) :
    ∀ (l : List String) (db : DB),
      (List.foldl (seedOneHub now) db l).users = db.users ∧
      (db.hubs.isSome = true →
        (List.foldl (seedOneHub now) db l).hubs.isSome = true) ∧
      (db.hub_metrics.isSome = true →
        (List.foldl (seedOneHub now) db l).hub_metrics.isSome = true) ∧
      (db.hub_capabilities.isSome = true →
        (List.foldl (seedOneHub now) db l).hub_capabilities.isSome = true) ∧
      (db.client_metrics.isSome = true →
        (List.foldl (seedOneHub now) db l).client_metrics.isSome = true) ∧
      (db.people_metrics.isSome = true →
        (List.foldl (seedOneHub now) db l).people_metrics.isSome = true) ∧
      (tbl (List.foldl (seedOneHub now) db l).hubs).cols = (tbl db.hubs).cols ∧
      (tbl (List.foldl (seedOneHub now) db l).hub_metrics).cols =
        (tbl db.hub_metrics).cols ∧
      (tbl (List.foldl (seedOneHub now) db l).hub_capabilities).cols =
        (tbl db.hub_capabilities).cols ∧
      (tbl (List.foldl (seedOneHub now) db l).client_metrics).cols =
        (tbl db.client_metrics).cols ∧
      (tbl (List.foldl (seedOneHub now) db l).people_metrics).cols =
        (tbl db.people_metrics).cols ∧
      (tbl (List.foldl (seedOneHub now) db l).hubs).rows.length =
        (tbl db.hubs).rows.length + l.length := by
  intro l
  induction l with
  | nil =>
    intro db
    exact ⟨rfl, fun h => h, fun h => h, fun h => h, fun h => h, fun h => h,
      rfl, rfl, rfl, rfl, rfl, rfl⟩
  | cons h₀ tl ih =>
    intro db
    rw [List.foldl_cons]
    obtain ⟨i1, i2, i3, i4, i5, i6, i7, i8, i9, i10, i11, i12⟩ :=
      ih (seedOneHub now db h₀)
    refine ⟨by rw [i1, seedOneHub_users], fun _ => i2 rfl, fun _ => i3 rfl,
      fun _ => i4 rfl, fun _ => i5 rfl, fun _ => i6 rfl,
      by rw [i7, seedOneHub_hubs_cols],
      by rw [i8, seedOneHub_hm_cols],
      by rw [i9, seedOneHub_cap_cols],
      by rw [i10, seedOneHub_client_cols],
      by rw [i11, seedOneHub_ppl_cols],
      by rw [i12, seedOneHub_hubs_length]; simp only [List.length_cons]; omega⟩

theorem seedHubsStep_users (now : String) (db : DB) :
    (seedHubsStep now db).users = db.users := by
  unfold seedHubsStep
  split
  · exact (foldl_seedOneHub_facts now defaultHubs db).1
  · rfl

theorem seedHubsStep_hubs_pos (now : String) (db : DB) :
    0 < (tbl (seedHubsStep now db).hubs).rows.length := by
  unfold seedHubsStep
  split
  · rw [(foldl_seedOneHub_facts now defaultHubs db).2.2.2.2.2.2.2.2.2.2.2]
    simp [defaultHubs]
  · rename_i hg
    have hne : (tbl db.hubs).rows.length ≠ 0 := by
      intro hc
      exact hg (by simp [hc])
    omega

theorem seedHubsStep_isSome_hubs (now : String) (db : DB)
    (h : db.hubs.isSome = true) : (seedHubsStep now db).hubs.isSome = true := by
  unfold seedHubsStep
  split
  · exact (foldl_seedOneHub_facts now defaultHubs db).2.1 h
  · exact h

theorem seedHubsStep_isSome_hm (now : String) (db : DB)
    (h : db.hub_metrics.isSome = true) :
    (seedHubsStep now db).hub_metrics.isSome = true := by
  unfold seedHubsStep
  split
  · exact (foldl_seedOneHub_facts now defaultHubs db).2.2.1 h
  · exact h

theorem seedHubsStep_isSome_cap (now : String) (db : DB)
    (h : db.hub_capabilities.isSome = true) :
    (seedHubsStep now db).hub_capabilities.isSome = true := by
  unfold seedHubsStep
  split
  · exact (foldl_seedOneHub_facts now defaultHubs db).2.2.2.1 h
  · exact h

theorem seedHubsStep_isSome_client (now : String) (db : DB)
    (h : db.client_metrics.isSome = true) :
    (seedHubsStep now db).client_metrics.isSome = true := by
  unfold seedHubsStep
  split
  · exact (foldl_seedOneHub_facts now defaultHubs db).2.2.2.2.1 h
  · exact h

theorem seedHubsStep_isSome_ppl (now : String) (db : DB)
    (h : db.people_metrics.isSome = true) :
    (seedHubsStep now db).people_metrics.isSome = true := by
  unfold seedHubsStep
  split
  · exact (foldl_seedOneHub_facts now defaultHubs db).2.2.2.2.2.1 h
  · exact h

theorem seedHubsStep_hm_cols (now : String) (db : DB) :
    (tbl (seedHubsStep now db).hub_metrics).cols = (tbl db.hub_metrics).cols := by
  unfold seedHubsStep
  split
  · exact (foldl_seedOneHub_facts now defaultHubs db).2.2.2.2.2.2.2.1
  · rfl

theorem seedHubsStep_cap_cols (now : String) (db : DB) :
    (tbl (seedHubsStep now db).hub_capabilities).cols =
      (tbl db.hub_capabilities).cols := by
  unfold seedHubsStep
  split
  · exact (foldl_seedOneHub_facts now defaultHubs db).2.2.2.2.2.2.2.2.1
  · rfl

theorem seedHubsStep_client_cols (now : String) (db : DB) :
    (tbl (seedHubsStep now db).client_metrics).cols =
      (tbl db.client_metrics).cols := by
  unfold seedHubsStep
  split
  · exact (foldl_seedOneHub_facts now defaultHubs db).2.2.2.2.2.2.2.2.2.1
  · rfl

theorem seedHubsStep_ppl_cols (now : String) (db : DB) :
    (tbl (seedHubsStep now db).people_metrics).cols =
      (tbl db.people_metrics).cols := by
  unfold seedHubsStep
  split
  · exact (foldl_seedOneHub_facts now defaultHubs db).2.2.2.2.2.2.2.2.2.2.1
  · rfl

theorem seedUsersStep_hubs (now : String) (db : DB) :
    (seedUsersStep now db).hubs = db.hubs := by
  unfold seedUsersStep
  split <;> rfl

theorem seedUsersStep_hm (now : String) (db : DB) :
    (seedUsersStep now db).hub_metrics = db.hub_metrics := by
  unfold seedUsersStep
  split <;> rfl

theorem seedUsersStep_cap (now : String) (db : DB) :
    (seedUsersStep now db).hub_capabilities = db.hub_capabilities := by
  unfold seedUsersStep
  split <;> rfl

theorem seedUsersStep_client (now : String) (db : DB) :
    (seedUsersStep now db).client_metrics = db.client_metrics := by
  unfold seedUsersStep
  split <;> rfl

theorem seedUsersStep_ppl (now : String) (db : DB) :
    (seedUsersStep now db).people_metrics = db.people_metrics := by
  unfold seedUsersStep
  split <;> rfl

theorem seedUsersStep_isSome_users (now : String) (db : DB)
    (h : db.users.isSome = true) :
    (seedUsersStep now db).users.isSome = true := by
  unfold seedUsersStep
  split
  · rfl
  · exact h

theorem seedUsersStep_users_pos (now : String) (db : DB) :
    0 < (tbl (seedUsersStep now db).users).rows.length := by
  unfold seedUsersStep
  split
  · rw [tbl_some,
      foldl_table_rows_length (hubUserInsert now)
        (fun t r => insertRow_rows_length now t _) _ _,
      insertRow_rows_length]
    omega
  · rename_i hg
    have hne : (tbl db.users).rows.length ≠ 0 := by
      intro hc
      exact hg (by simp [hc])
    omega

theorem hubMetricsEarlyAdds_hasCol (t : Table) :
    hasCol (hubMetricsEarlyAdds t) "bench_count" = true ∧
      hasCol (hubMetricsEarlyAdds t) "location_headcounts" = true ∧
      hasCol (hubMetricsEarlyAdds t) "certifications" = true := by
  unfold hubMetricsEarlyAdds
  refine ⟨?_, ?_, ?_⟩
  · exact hasCol_addColIfMissing_mono _ _ _ _
      (hasCol_addColIfMissing_mono _ _ _ _ (hasCol_addColIfMissing_self _ _ _))
  · exact hasCol_addColIfMissing_mono _ _ _ _ (hasCol_addColIfMissing_self _ _ _)
  · exact hasCol_addColIfMissing_self _ _ _

theorem hubMetricsEarlyAdds_mono (t : Table) (c : String)
    (h : hasCol t c = true) : hasCol (hubMetricsEarlyAdds t) c = true :=
  hasCol_addColIfMissing_mono _ _ _ _
    (hasCol_addColIfMissing_mono _ _ _ _ (hasCol_addColIfMissing_mono _ _ _ _ h))

theorem hubMetricsTsAdds_hasCol (t : Table) :
    hasCol (hubMetricsTsAdds t) "metrics_updated_at" = true ∧
      hasCol (hubMetricsTsAdds t) "location_updated_at" = true ∧
      hasCol (hubMetricsTsAdds t) "certifications_updated_at" = true := by
  unfold hubMetricsTsAdds
  refine ⟨?_, ?_, ?_⟩
  · exact hasCol_addColIfMissing_mono _ _ _ _
      (hasCol_addColIfMissing_mono _ _ _ _ (hasCol_addColIfMissing_self _ _ _))
  · exact hasCol_addColIfMissing_mono _ _ _ _ (hasCol_addColIfMissing_self _ _ _)
  · exact hasCol_addColIfMissing_self _ _ _

theorem hubMetricsTsAdds_mono (t : Table) (c : String)
    (h : hasCol t c = true) : hasCol (hubMetricsTsAdds t) c = true :=
  hasCol_addColIfMissing_mono _ _ _ _
    (hasCol_addColIfMissing_mono _ _ _ _ (hasCol_addColIfMissing_mono _ _ _ _ h))

theorem hubCapabilitiesAdds_hasCol (t : Table) :
    hasCol (hubCapabilitiesAdds t) "capability_updated_at" = true ∧
      hasCol (hubCapabilitiesAdds t) "headcount" = true := by
  unfold hubCapabilitiesAdds
  exact ⟨hasCol_addColIfMissing_mono _ _ _ _ (hasCol_addColIfMissing_self _ _ _),
    hasCol_addColIfMissing_self _ _ _⟩

theorem clientMetricsAdds_hasCol (t : Table) :
    hasCol (clientMetricsAdds t) "employee_count" = true ∧
      hasCol (clientMetricsAdds t) "client_updated_at" = true ∧
      hasCol (clientMetricsAdds t) "capability_name" = true ∧
      hasCol (clientMetricsAdds t) "relationship_duration" = true := by
  unfold clientMetricsAdds
  refine ⟨?_, ?_, ?_, ?_⟩
  · exact hasCol_addColIfMissing_mono _ _ _ _
      (hasCol_addColIfMissing_mono _ _ _ _
        (hasCol_addColIfMissing_mono _ _ _ _ (hasCol_addColIfMissing_self _ _ _)))
  · exact hasCol_addColIfMissing_mono _ _ _ _
      (hasCol_addColIfMissing_mono _ _ _ _ (hasCol_addColIfMissing_self _ _ _))
  · exact hasCol_addColIfMissing_mono _ _ _ _ (hasCol_addColIfMissing_self _ _ _)
  · exact hasCol_addColIfMissing_self _ _ _

theorem peopleMetricsAdds_hasCol (t : Table) :
    hasCol (peopleMetricsAdds t) "date_created" = true ∧
      hasCol (peopleMetricsAdds t) "people_metric_updated_at" = true := by
  unfold peopleMetricsAdds
  constructor
  · apply hasCol_addColIfMissing_mono
    split
    · rename_i h
      exact h
    · rw [show ∀ t₂ : Table, hasCol (updateRows t₂ (fun r =>
          isNull (getVal r "date_created"))
          (fun r => setVal r "date_created" (getVal r "updated_at"))) "date_created" =
          hasCol t₂ "date_created" from fun t₂ => rfl]
      exact hasCol_addColIfMissing_self _ _ _
  · exact hasCol_addColIfMissing_self _ _ _

theorem hubMetricsEarlyAdds_id (t : Table)
    (h1 : hasCol t "bench_count" = true)
    (h2 : hasCol t "location_headcounts" = true)
    (h3 : hasCol t "certifications" = true) : hubMetricsEarlyAdds t = t := by
  unfold hubMetricsEarlyAdds
  rw [addColIfMissing_of_hasCol t _ _ h1, addColIfMissing_of_hasCol t _ _ h2,
    addColIfMissing_of_hasCol t _ _ h3]

theorem hubMetricsTsAdds_id (t : Table)
    (h1 : hasCol t "metrics_updated_at" = true)
    (h2 : hasCol t "location_updated_at" = true)
    (h3 : hasCol t "certifications_updated_at" = true) :
    hubMetricsTsAdds t = t := by
  unfold hubMetricsTsAdds
  rw [addColIfMissing_of_hasCol t _ _ h1, addColIfMissing_of_hasCol t _ _ h2,
    addColIfMissing_of_hasCol t _ _ h3]

theorem hubCapabilitiesAdds_id (t : Table)
    (h1 : hasCol t "capability_updated_at" = true)
    (h2 : hasCol t "headcount" = true) : hubCapabilitiesAdds t = t := by
  unfold hubCapabilitiesAdds
  rw [addColIfMissing_of_hasCol t _ _ h1, addColIfMissing_of_hasCol t _ _ h2]

theorem clientMetricsAdds_id (t : Table)
    (h1 : hasCol t "employee_count" = true)
    (h2 : hasCol t "client_updated_at" = true)
    (h3 : hasCol t "capability_name" = true)
    (h4 : hasCol t "relationship_duration" = true) : clientMetricsAdds t = t := by
  unfold clientMetricsAdds
  rw [addColIfMissing_of_hasCol t _ _ h1, addColIfMissing_of_hasCol t _ _ h2,
    addColIfMissing_of_hasCol t _ _ h3, addColIfMissing_of_hasCol t _ _ h4]

theorem peopleMetricsAdds_id (t : Table)
    (h1 : hasCol t "date_created" = true)
    (h2 : hasCol t "people_metric_updated_at" = true) :
    peopleMetricsAdds t = t := by
  unfold peopleMetricsAdds
  rw [if_pos h1, addColIfMissing_of_hasCol t _ _ h2]

theorem seedHubsStep_id (now : String) (db : DB)
    (h : (tbl db.hubs).rows.length ≠ 0) : seedHubsStep now db = db := by
  unfold seedHubsStep
  rw [if_neg (by simpa using h)]

theorem seedUsersStep_id (now : String) (db : DB)
    (h : (tbl db.users).rows.length ≠ 0) : seedUsersStep now db = db := by
  unfold seedUsersStep
  rw [if_neg (by simpa using h)]

theorem hasCol_of_cols_eq (t t₂ : Table) (h : t.cols = t₂.cols) (c : String) :
    hasCol t c = hasCol t₂ c := by
  unfold hasCol
  rw [h]

/-- State in which a run of `setup_database` leaves the store: all six
tables present, every guarded column present, hubs and users
non-empty, and no NULL left in any backfilled timestamp column.  On
such a state every step of `setup_database` is the identity. -/
def SetupPost (db : DB) : Prop :=
  db.users.isSome = true ∧ db.hubs.isSome = true ∧
  db.hub_metrics.isSome = true ∧ db.hub_capabilities.isSome = true ∧
  db.client_metrics.isSome = true ∧ db.people_metrics.isSome = true ∧
  hasCol (tbl db.hub_metrics) "bench_count" = true ∧
  hasCol (tbl db.hub_metrics) "location_headcounts" = true ∧
  hasCol (tbl db.hub_metrics) "certifications" = true ∧
  hasCol (tbl db.hub_metrics) "metrics_updated_at" = true ∧
  hasCol (tbl db.hub_metrics) "location_updated_at" = true ∧
  hasCol (tbl db.hub_metrics) "certifications_updated_at" = true ∧
  hasCol (tbl db.hub_capabilities) "capability_updated_at" = true ∧
  hasCol (tbl db.hub_capabilities) "headcount" = true ∧
  hasCol (tbl db.client_metrics) "employee_count" = true ∧
  hasCol (tbl db.client_metrics) "client_updated_at" = true ∧
  hasCol (tbl db.client_metrics) "capability_name" = true ∧
  hasCol (tbl db.client_metrics) "relationship_duration" = true ∧
  hasCol (tbl db.people_metrics) "date_created" = true ∧
  hasCol (tbl db.people_metrics) "people_metric_updated_at" = true ∧
  0 < (tbl db.hubs).rows.length ∧ 0 < (tbl db.users).rows.length ∧
  (∀ r ∈ (tbl db.hub_metrics).rows, rowAnyNull hmTsCols r = false) ∧
  (∀ r ∈ (tbl db.hub_capabilities).rows,
    rowAnyNull ["capability_updated_at"] r = false) ∧
  (∀ r ∈ (tbl db.client_metrics).rows,
    rowAnyNull ["client_updated_at"] r = false) ∧
  (∀ r ∈ (tbl db.people_metrics).rows,
    rowAnyNull ["people_metric_updated_at"] r = false)

theorem setup_database_id_of_post (now : String) (db : DB) (h : SetupPost db) :
    setup_database now db = db := by
  obtain ⟨hu, hh, hm, hc, hcl, hp, b1, b2, b3, t1, t2, t3, c1, c2, m1, m2, m3,
    m4, p1, p2, lh, lu, n1, n2, n3, n4⟩ := h
  obtain ⟨mt, hmt⟩ := Option.isSome_iff_exists.mp hm
  obtain ⟨ct, hct⟩ := Option.isSome_iff_exists.mp hc
  obtain ⟨clt, hclt⟩ := Option.isSome_iff_exists.mp hcl
  obtain ⟨pt, hpt⟩ := Option.isSome_iff_exists.mp hp
  have e1 : phase1 db = db := by
    unfold phase1
    rw [createIfAbsent_of_isSome _ _ hu, createIfAbsent_of_isSome _ _ hh,
      createIfAbsent_of_isSome _ _ hm, createIfAbsent_of_isSome _ _ hc,
      createIfAbsent_of_isSome _ _ hcl, createIfAbsent_of_isSome _ _ hp]
    rw [hmt, onTable_some,
      hubMetricsEarlyAdds_id mt (by rw [hmt] at b1; exact b1)
        (by rw [hmt] at b2; exact b2) (by rw [hmt] at b3; exact b3), ← hmt]
  have e2 : seedHubsStep now db = db := seedHubsStep_id now db (by omega)
  have e3 : seedUsersStep now db = db := seedUsersStep_id now db (by omega)
  have e4 : phase3 db = db := by
    unfold phase3
    rw [hmt, hct, hclt, hpt, onTable_some, onTable_some, onTable_some,
      onTable_some,
      hubMetricsTsAdds_id mt (by rw [hmt] at t1; exact t1)
        (by rw [hmt] at t2; exact t2) (by rw [hmt] at t3; exact t3),
      hubCapabilitiesAdds_id ct (by rw [hct] at c1; exact c1)
        (by rw [hct] at c2; exact c2),
      clientMetricsAdds_id clt (by rw [hclt] at m1; exact m1)
        (by rw [hclt] at m2; exact m2) (by rw [hclt] at m3; exact m3)
        (by rw [hclt] at m4; exact m4),
      peopleMetricsAdds_id pt (by rw [hpt] at p1; exact p1)
        (by rw [hpt] at p2; exact p2),
      ← hmt, ← hct, ← hclt, ← hpt]
  have e5 : backfillStep now db = db := by
    unfold backfillStep
    rw [hmt, hct, hclt, hpt, onTable_some, onTable_some, onTable_some,
      onTable_some,
      backfillTable_id now _ mt (by rw [hmt] at n1; exact n1),
      backfillTable_id now _ ct (by rw [hct] at n2; exact n2),
      backfillTable_id now _ clt (by rw [hclt] at n3; exact n3),
      backfillTable_id now _ pt (by rw [hpt] at n4; exact n4),
      ← hmt, ← hct, ← hclt, ← hpt]
  unfold setup_database
  rw [e1, e2, e3, e4, e5]

/-- Facts established by `phase1` and preserved up to `phase3`. -/
def MidFacts (db : DB) : Prop :=
  db.users.isSome = true ∧ db.hubs.isSome = true ∧
  db.hub_metrics.isSome = true ∧ db.hub_capabilities.isSome = true ∧
  db.client_metrics.isSome = true ∧ db.people_metrics.isSome = true ∧
  hasCol (tbl db.hub_metrics) "bench_count" = true ∧
  hasCol (tbl db.hub_metrics) "location_headcounts" = true ∧
  hasCol (tbl db.hub_metrics) "certifications" = true

/-- Facts holding after `phase3`: presence, every guarded column, and
both seed guards satisfied. -/
def Mid4 (db : DB) : Prop :=
  db.users.isSome = true ∧ db.hubs.isSome = true ∧
  db.hub_metrics.isSome = true ∧ db.hub_capabilities.isSome = true ∧
  db.client_metrics.isSome = true ∧ db.people_metrics.isSome = true ∧
  hasCol (tbl db.hub_metrics) "bench_count" = true ∧
  hasCol (tbl db.hub_metrics) "location_headcounts" = true ∧
  hasCol (tbl db.hub_metrics) "certifications" = true ∧
  hasCol (tbl db.hub_metrics) "metrics_updated_at" = true ∧
  hasCol (tbl db.hub_metrics) "location_updated_at" = true ∧
  hasCol (tbl db.hub_metrics) "certifications_updated_at" = true ∧
  hasCol (tbl db.hub_capabilities) "capability_updated_at" = true ∧
  hasCol (tbl db.hub_capabilities) "headcount" = true ∧
  hasCol (tbl db.client_metrics) "employee_count" = true ∧
  hasCol (tbl db.client_metrics) "client_updated_at" = true ∧
  hasCol (tbl db.client_metrics) "capability_name" = true ∧
  hasCol (tbl db.client_metrics) "relationship_duration" = true ∧
  hasCol (tbl db.people_metrics) "date_created" = true ∧
  hasCol (tbl db.people_metrics) "people_metric_updated_at" = true ∧
  0 < (tbl db.hubs).rows.length ∧ 0 < (tbl db.users).rows.length

theorem phase1_facts (db : DB) : MidFacts (phase1 db) := by
  obtain ⟨m0, hm0⟩ := Option.isSome_iff_exists.mp
    (createIfAbsent_isSome db.hub_metrics hubMetricsSchema)
  have hproj : (phase1 db).hub_metrics = some (hubMetricsEarlyAdds m0) := by
    show onTable hubMetricsEarlyAdds
      (createIfAbsent db.hub_metrics hubMetricsSchema) = _
    rw [hm0, onTable_some]
  refine ⟨createIfAbsent_isSome _ _, createIfAbsent_isSome _ _,
    by rw [hproj]; rfl, createIfAbsent_isSome _ _, createIfAbsent_isSome _ _,
    createIfAbsent_isSome _ _, ?_, ?_, ?_⟩
  · rw [hproj, tbl_some]
    exact (hubMetricsEarlyAdds_hasCol m0).1
  · rw [hproj, tbl_some]
    exact (hubMetricsEarlyAdds_hasCol m0).2.1
  · rw [hproj, tbl_some]
    exact (hubMetricsEarlyAdds_hasCol m0).2.2

theorem seedHubs_facts (now : String) (db : DB) (h : MidFacts db) :
    MidFacts (seedHubsStep now db) ∧
      0 < (tbl (seedHubsStep now db).hubs).rows.length := by
  obtain ⟨hu, hh, hm, hc, hcl, hp, b1, b2, b3⟩ := h
  refine ⟨⟨by rw [seedHubsStep_users]; exact hu,
    seedHubsStep_isSome_hubs now db hh, seedHubsStep_isSome_hm now db hm,
    seedHubsStep_isSome_cap now db hc, seedHubsStep_isSome_client now db hcl,
    seedHubsStep_isSome_ppl now db hp, ?_, ?_, ?_⟩,
    seedHubsStep_hubs_pos now db⟩
  · rw [hasCol_of_cols_eq _ _ (seedHubsStep_hm_cols now db)]
    exact b1
  · rw [hasCol_of_cols_eq _ _ (seedHubsStep_hm_cols now db)]
    exact b2
  · rw [hasCol_of_cols_eq _ _ (seedHubsStep_hm_cols now db)]
    exact b3

theorem seedUsers_facts (now : String) (db : DB)
    (h : MidFacts db ∧ 0 < (tbl db.hubs).rows.length) :
    (MidFacts (seedUsersStep now db) ∧
      0 < (tbl (seedUsersStep now db).hubs).rows.length) ∧
      0 < (tbl (seedUsersStep now db).users).rows.length := by
  obtain ⟨⟨hu, hh, hm, hc, hcl, hp, b1, b2, b3⟩, hpos⟩ := h
  refine ⟨⟨⟨seedUsersStep_isSome_users now db hu,
    by rw [seedUsersStep_hubs]; exact hh,
    by rw [seedUsersStep_hm]; exact hm,
    by rw [seedUsersStep_cap]; exact hc,
    by rw [seedUsersStep_client]; exact hcl,
    by rw [seedUsersStep_ppl]; exact hp,
    by rw [seedUsersStep_hm]; exact b1,
    by rw [seedUsersStep_hm]; exact b2,
    by rw [seedUsersStep_hm]; exact b3⟩,
    by rw [seedUsersStep_hubs]; exact hpos⟩,
    seedUsersStep_users_pos now db⟩

theorem phase3_facts (db : DB)
    (h : (MidFacts db ∧ 0 < (tbl db.hubs).rows.length) ∧
      0 < (tbl db.users).rows.length) : Mid4 (phase3 db) := by
  obtain ⟨⟨⟨hu, hh, hm, hc, hcl, hp, b1, b2, b3⟩, hposh⟩, hposu⟩ := h
  obtain ⟨mt, hmt⟩ := Option.isSome_iff_exists.mp hm
  obtain ⟨ct, hct⟩ := Option.isSome_iff_exists.mp hc
  obtain ⟨clt, hclt⟩ := Option.isSome_iff_exists.mp hcl
  obtain ⟨pt, hpt⟩ := Option.isSome_iff_exists.mp hp
  have pm : (phase3 db).hub_metrics = some (hubMetricsTsAdds mt) := by
    show onTable hubMetricsTsAdds db.hub_metrics = _
    rw [hmt, onTable_some]
  have pc : (phase3 db).hub_capabilities = some (hubCapabilitiesAdds ct) := by
    show onTable hubCapabilitiesAdds db.hub_capabilities = _
    rw [hct, onTable_some]
  have pcl : (phase3 db).client_metrics = some (clientMetricsAdds clt) := by
    show onTable clientMetricsAdds db.client_metrics = _
    rw [hclt, onTable_some]
  have pp : (phase3 db).people_metrics = some (peopleMetricsAdds pt) := by
    show onTable peopleMetricsAdds db.people_metrics = _
    rw [hpt, onTable_some]
  rw [hmt, tbl_some] at b1 b2 b3
  refine ⟨hu, hh, by rw [pm]; rfl, by rw [pc]; rfl, by rw [pcl]; rfl,
    by rw [pp]; rfl,
    by rw [pm, tbl_some]; exact hubMetricsTsAdds_mono mt _ b1,
    by rw [pm, tbl_some]; exact hubMetricsTsAdds_mono mt _ b2,
    by rw [pm, tbl_some]; exact hubMetricsTsAdds_mono mt _ b3,
    by rw [pm, tbl_some]; exact (hubMetricsTsAdds_hasCol mt).1,
    by rw [pm, tbl_some]; exact (hubMetricsTsAdds_hasCol mt).2.1,
    by rw [pm, tbl_some]; exact (hubMetricsTsAdds_hasCol mt).2.2,
    by rw [pc, tbl_some]; exact (hubCapabilitiesAdds_hasCol ct).1,
    by rw [pc, tbl_some]; exact (hubCapabilitiesAdds_hasCol ct).2,
    by rw [pcl, tbl_some]; exact (clientMetricsAdds_hasCol clt).1,
    by rw [pcl, tbl_some]; exact (clientMetricsAdds_hasCol clt).2.1,
    by rw [pcl, tbl_some]; exact (clientMetricsAdds_hasCol clt).2.2.1,
    by rw [pcl, tbl_some]; exact (clientMetricsAdds_hasCol clt).2.2.2,
    by rw [pp, tbl_some]; exact (peopleMetricsAdds_hasCol pt).1,
    by rw [pp, tbl_some]; exact (peopleMetricsAdds_hasCol pt).2,
    hposh, hposu⟩

theorem backfill_facts (now : String) (db : DB) (h : Mid4 db) :
    SetupPost (backfillStep now db) := by
  obtain ⟨hu, hh, hm, hc, hcl, hp, b1, b2, b3, t1, t2, t3, c1, c2, m1, m2, m3,
    m4, p1, p2, lh, lu⟩ := h
  obtain ⟨mt, hmt⟩ := Option.isSome_iff_exists.mp hm
  obtain ⟨ct, hct⟩ := Option.isSome_iff_exists.mp hc
  obtain ⟨clt, hclt⟩ := Option.isSome_iff_exists.mp hcl
  obtain ⟨pt, hpt⟩ := Option.isSome_iff_exists.mp hp
  have pm : (backfillStep now db).hub_metrics =
      some (backfillTable now hmTsCols mt) := by
    show onTable (backfillTable now hmTsCols) db.hub_metrics = _
    rw [hmt, onTable_some]
  have pc : (backfillStep now db).hub_capabilities =
      some (backfillTable now ["capability_updated_at"] ct) := by
    show onTable (backfillTable now ["capability_updated_at"])
      db.hub_capabilities = _
    rw [hct, onTable_some]
  have pcl : (backfillStep now db).client_metrics =
      some (backfillTable now ["client_updated_at"] clt) := by
    show onTable (backfillTable now ["client_updated_at"]) db.client_metrics = _
    rw [hclt, onTable_some]
  have pp : (backfillStep now db).people_metrics =
      some (backfillTable now ["people_metric_updated_at"] pt) := by
    show onTable (backfillTable now ["people_metric_updated_at"])
      db.people_metrics = _
    rw [hpt, onTable_some]
  rw [hmt, tbl_some] at b1 b2 b3 t1 t2 t3
  rw [hct, tbl_some] at c1 c2
  rw [hclt, tbl_some] at m1 m2 m3 m4
  rw [hpt, tbl_some] at p1 p2
  refine ⟨hu, hh, by rw [pm]; rfl, by rw [pc]; rfl, by rw [pcl]; rfl,
    by rw [pp]; rfl,
    by rw [pm, tbl_some, hasCol_of_cols_eq _ _ (backfillTable_cols now _ mt)]; exact b1,
    by rw [pm, tbl_some, hasCol_of_cols_eq _ _ (backfillTable_cols now _ mt)]; exact b2,
    by rw [pm, tbl_some, hasCol_of_cols_eq _ _ (backfillTable_cols now _ mt)]; exact b3,
    by rw [pm, tbl_some, hasCol_of_cols_eq _ _ (backfillTable_cols now _ mt)]; exact t1,
    by rw [pm, tbl_some, hasCol_of_cols_eq _ _ (backfillTable_cols now _ mt)]; exact t2,
    by rw [pm, tbl_some, hasCol_of_cols_eq _ _ (backfillTable_cols now _ mt)]; exact t3,
    by rw [pc, tbl_some, hasCol_of_cols_eq _ _ (backfillTable_cols now _ ct)]; exact c1,
    by rw [pc, tbl_some, hasCol_of_cols_eq _ _ (backfillTable_cols now _ ct)]; exact c2,
    by rw [pcl, tbl_some, hasCol_of_cols_eq _ _ (backfillTable_cols now _ clt)]; exact m1,
    by rw [pcl, tbl_some, hasCol_of_cols_eq _ _ (backfillTable_cols now _ clt)]; exact m2,
    by rw [pcl, tbl_some, hasCol_of_cols_eq _ _ (backfillTable_cols now _ clt)]; exact m3,
    by rw [pcl, tbl_some, hasCol_of_cols_eq _ _ (backfillTable_cols now _ clt)]; exact m4,
    by rw [pp, tbl_some, hasCol_of_cols_eq _ _ (backfillTable_cols now _ pt)]; exact p1,
    by rw [pp, tbl_some, hasCol_of_cols_eq _ _ (backfillTable_cols now _ pt)]; exact p2,
    lh, lu,
    by rw [pm, tbl_some]; exact backfillTable_clears now _ mt (by decide),
    by rw [pc, tbl_some]; exact backfillTable_clears now _ ct (by decide),
    by rw [pcl, tbl_some]; exact backfillTable_clears now _ clt (by decide),
    by rw [pp, tbl_some]; exact backfillTable_clears now _ pt (by decide)⟩

/-- Every run of `setup_database` leaves the store in `SetupPost`. -/
theorem setup_database_post (now : String) (db : DB) :
    SetupPost (setup_database now db) := by
  unfold setup_database
  exact backfill_facts now _ (phase3_facts _
    (seedUsers_facts now _ (seedHubs_facts now _ (phase1_facts db))))

/-- C5: running `setup_database` twice in succession against the same
store is idempotent — the second run (at any later clock `now₂`) adds
no columns, changes no data, and returns a state identical to the one
the first run produced.  The `wellFormed` hypothesis scopes the
statement to stores on which the source's INSERT and SELECT statements
are well-defined (any store this application ever produced); the empty
store satisfies it. -/
theorem setup_database_idempotent (now₁ now₂ : String) (db : DB)
    (hwf : wellFormed db = true) :
    setup_database now₂ (setup_database now₁ db) = setup_database now₁ db :=
  setup_database_id_of_post now₂ _ (setup_database_post now₁ db)

/-- Witness for `setup_database_idempotent` at the empty store. -/
theorem setup_database_idempotent_witness :
    wellFormed emptyDB = true ∧
      setup_database "2025-02-01 00:00:00"
          (setup_database "2025-01-01 00:00:00" emptyDB) =
        setup_database "2025-01-01 00:00:00" emptyDB :=
  ⟨by decide,
    setup_database_idempotent "2025-01-01 00:00:00" "2025-02-01 00:00:00"
      emptyDB (by decide)⟩

/-- C7: starting from the empty store, running the setup (and with it
the seed loader) twice produces exactly the same row counts in every
seeded table as running it once; moreover hub seeding is guarded by
the row-count emptiness check on hubs and user seeding by the one on
users — with a non-empty guard table the respective seeding step
returns the store unchanged, so seeded rows are never duplicated or
overwritten. -/
theorem seed_loader_runs_once (now₁ now₂ : String) :
    rowCounts (setup_database now₂ (setup_database now₁ emptyDB)) =
      rowCounts (setup_database now₁ emptyDB) ∧
    (∀ (now : String) (db : DB), (tbl db.hubs).rows.length ≠ 0 →
      seedHubsStep now db = db) ∧
    (∀ (now : String) (db : DB), (tbl db.users).rows.length ≠ 0 →
      seedUsersStep now db = db) := by
  refine ⟨?_, seedHubsStep_id, seedUsersStep_id⟩
  rw [setup_database_id_of_post now₂ _ (setup_database_post now₁ emptyDB)]

/-- Witness for `seed_loader_runs_once`: the guard hypotheses hold at
a one-row hubs/users store, and the seeding steps leave it unchanged. -/
theorem seed_loader_runs_once_witness :
    ((tbl (DB.mk (some ⟨usersSchema, [[("id", Value.int 1)]]⟩)
        (some ⟨hubsSchema, [[("id", Value.int 1)]]⟩)
        none none none none).hubs).rows.length ≠ 0 ∧
      (tbl (DB.mk (some ⟨usersSchema, [[("id", Value.int 1)]]⟩)
        (some ⟨hubsSchema, [[("id", Value.int 1)]]⟩)
        none none none none).users).rows.length ≠ 0) ∧
    seedHubsStep "2025-01-01 00:00:00"
        (DB.mk (some ⟨usersSchema, [[("id", Value.int 1)]]⟩)
          (some ⟨hubsSchema, [[("id", Value.int 1)]]⟩) none none none none) =
      DB.mk (some ⟨usersSchema, [[("id", Value.int 1)]]⟩)
        (some ⟨hubsSchema, [[("id", Value.int 1)]]⟩) none none none none ∧
    seedUsersStep "2025-01-01 00:00:00"
        (DB.mk (some ⟨usersSchema, [[("id", Value.int 1)]]⟩)
          (some ⟨hubsSchema, [[("id", Value.int 1)]]⟩) none none none none) =
      DB.mk (some ⟨usersSchema, [[("id", Value.int 1)]]⟩)
        (some ⟨hubsSchema, [[("id", Value.int 1)]]⟩) none none none none :=
  ⟨⟨by decide, by decide⟩,
    (seed_loader_runs_once "2025-01-01 00:00:00" "2025-02-01 00:00:00").2.1
      "2025-01-01 00:00:00" _ (by decide),
    (seed_loader_runs_once "2025-01-01 00:00:00" "2025-02-01 00:00:00").2.2
      "2025-01-01 00:00:00" _ (by decide)⟩

/-- C3 counterexample: at exactly 30 elapsed days the coloring already
classifies the field as warning (tier 2, yellow) while `is_outdated`
is still false — `is_outdated` first becomes true at 31 days, so tier 2
does not start where the staleness predicate becomes true.  Moreover at
exactly 35 elapsed days the color is red, so the warning tier is 30-34
days, not the claimed 30-35. -/
theorem color_disagrees_with_is_outdated_at_30_days :
    color_by_days (30 * 86400) (.valid 0) = .yellow ∧
      is_outdated (30 * 86400) (.valid 0) = false ∧
      is_outdated (31 * 86400) (.valid 0) = true ∧
      color_by_days (35 * 86400) (.valid 0) = .red := by
  refine ⟨?_, ?_, ?_, ?_⟩ <;> decide

/-- C3 amended: both functions derive from the identical day count
`(now - t).days`; for a valid timestamp the classification is fresh
(green) for fewer than 30 elapsed days, warning (yellow) for 30 to 34
days, and stale (red) from 35 days on, while `is_outdated` holds
exactly for day counts above 30 — so the warning tier begins at 30
days, one day before `is_outdated` first becomes true. -/
theorem color_tiers_and_is_outdated (now t : Int) :
    (pythonDays now t < 30 → color_by_days now (.valid t) = .green) ∧
      (30 ≤ pythonDays now t → pythonDays now t < 35 →
        color_by_days now (.valid t) = .yellow) ∧
      (35 ≤ pythonDays now t → color_by_days now (.valid t) = .red) ∧
      is_outdated now (.valid t) = decide (pythonDays now t > 30) := by
  refine ⟨?_, ?_, ?_, rfl⟩
  · intro h
    simp [color_by_days, h]
  · intro h1 h2
    simp [color_by_days, not_lt.mpr h1, h2]
  · intro h
    have h30 : (30 : Int) ≤ pythonDays now t := le_trans (by norm_num) h
    simp [color_by_days, not_lt.mpr h, not_lt.mpr h30]

/-- Witness for `color_tiers_and_is_outdated`: at 32 elapsed days the
hypotheses of the warning branch hold and the color is yellow. -/
theorem color_tiers_and_is_outdated_witness :
    30 ≤ pythonDays (32 * 86400) 0 ∧ pythonDays (32 * 86400) 0 < 35 ∧
      color_by_days (32 * 86400) (.valid 0) = .yellow :=
  ⟨by decide, by decide,
    (color_tiers_and_is_outdated (32 * 86400) 0).2.1 (by decide) (by decide)⟩

end GDCForm
